import Mathlib

/-!
Shallow embedding of the aeptools AEP codec (src/aep/aep.py, src/aep/bin.py,
src/aep/json.py) and proofs about it.

Python integers that the code treats as unsigned (sizes, counts, widths,
frames, colour components, pointers) are modelled as natural numbers.
Python floats are modelled as rational numbers carrying the exact value of
the IEEE-754 number (reads of f32 wire values decode the bit pattern into an
exact rational; an exponent field of 255, i.e. an infinity or NaN, which has
no rational value, is modelled as a read error).  Fallible Python code
(raised exceptions) is modelled with Except String.
-/

set_option maxRecDepth 20000

namespace Aep

/-- Little-endian interpretation of a byte list, as Python
int.from_bytes(bs, little).  from_bytes of the empty byte string is 0. -/
def fromBytesLE : List Nat → Nat
  | [] => 0
  | b :: bs => b + 256 * fromBytesLE bs

/-- The little-endian byte list of length len for value v (v taken mod
256 ^ len); pure counterpart of Python int.to_bytes used in statements. -/
def leBytes : Nat → Nat → List Nat
  | 0, _ => []
  | len + 1, v => v % 256 :: leBytes len (v / 256)

/-- Python int.to_bytes(len, little): the little-endian bytes, or an
OverflowError when the value does not fit. -/
def toBytesLE (len v : Nat) : Except String (List Nat) :=
  if v < 256 ^ len then .ok (leBytes len v) else .error "OverflowError: int too big to convert"

/-- Python str.encode(ascii): the code points of the characters, or a
UnicodeEncodeError when some character is not ASCII. -/
def encodeAscii (s : String) : Except String (List Nat) :=
  if s.data.all (fun c => c.toNat < 128) then .ok (s.data.map (·.toNat))
  else .error "UnicodeEncodeError: ascii codec cannot encode character"

/-- The byte list of an ASCII string (meaningful when every character is
ASCII); pure counterpart of encodeAscii used in statements. -/
def asciiBytes (s : String) : List Nat := s.data.map (·.toNat)

/-- Python int(f) on a float: truncation of the rational value toward 0
(floor of the absolute value, carrying the sign). -/
def pyTrunc (q : ℚ) : ℤ :=
  if q.num < 0 then -(Int.ofNat (q.num.natAbs / q.den)) else Int.ofNat (q.num.natAbs / q.den)

/-- Python str.split(sep) restricted to a one-character separator, over the
character list of the string. -/
def splitOnChar (c : Char) : List Char → List (List Char)
  | [] => [[]]
  | x :: xs =>
    match splitOnChar c xs with
    | [] => [[]]
    | ys :: rest => if x = c then [] :: ys :: rest else (x :: ys) :: rest

/-- First-occurrence deduplication with an explicit seen accumulator. -/
def dedupFirstAux (seen : List String) : List String → List String
  | [] => []
  | x :: xs => if x ∈ seen then dedupFirstAux seen xs else x :: dedupFirstAux (x :: seen) xs

/-- The distinct values of a list, in order of first occurrence. -/
def dedupFirst (names : List String) : List String := dedupFirstAux [] names

/-- The NUL-terminated ASCII encoding of one string (meaningful when the
string is ASCII). -/
def strEnc (s : String) : List Nat := asciiBytes s ++ [0]

/-- Byte offset of the first list entry equal to n inside the concatenation
of the NUL-terminated encodings of the entries. -/
def offsetIn : List String → String → Nat
  | [], _ => 0
  | x :: xs, n => if x = n then 0 else (strEnc x).length + offsetIn xs n

/-- The strings-section byte image of a write sequence: every distinct value
once, in first-occurrence order, NUL-terminated. -/
def stringsBufferOf (names : List String) : List Nat :=
  ((dedupFirst names).map strEnc).flatten

/-- Offset at which a value was first written into the strings section for a
given write sequence. -/
def firstOffset (names : List String) (n : String) : Nat :=
  offsetIn (dedupFirst names) n

/-! ## The data model (src/aep/aep.py) -/

/-- aep.py LayerType. -/
inductive LayerType
  | COMPOSITION
  | COLOUR
  | TEXTURE
deriving DecidableEq, Repr

/-- aep.py BlendMode. -/
inductive BlendMode
  | NORMAL
  | ADDITIVE
  | UNKNOWN
deriving DecidableEq, Repr

/-- aep.py Texture. -/
structure Texture where
  name : String
  width : Nat
  height : Nat
deriving DecidableEq, Repr

/-- aep.py PositionKeyframe. -/
structure PositionKeyframe where
  frame : Nat
  x : ℚ
  y : ℚ
  z : ℚ
deriving DecidableEq, Repr

/-- aep.py AnchorPointKeyframe. -/
structure AnchorPointKeyframe where
  frame : Nat
  x : ℚ
  y : ℚ
  z : ℚ
deriving DecidableEq, Repr

/-- aep.py ColourKeyframe. -/
structure ColourKeyframe where
  frame : Nat
  r : ℤ
  g : ℤ
  b : ℤ
  a : ℤ
deriving DecidableEq, Repr

/-- aep.py ScaleKeyframe. -/
structure ScaleKeyframe where
  frame : Nat
  x : ℚ
  y : ℚ
deriving DecidableEq, Repr

/-- aep.py AlphaKeyframe. -/
structure AlphaKeyframe where
  frame : Nat
  value : ℚ
deriving DecidableEq, Repr

/-- aep.py RotationKeyframe. -/
structure RotationKeyframe where
  frame : Nat
  degrees : ℚ
deriving DecidableEq, Repr

/-- aep.py SizeKeyframe. -/
structure SizeKeyframe where
  frame : Nat
  width : Nat
  height : Nat
deriving DecidableEq, Repr

/-- aep.py Marker. -/
structure Marker where
  frame : Nat
  unknown : Nat
  name : String
deriving DecidableEq, Repr

/-- aep.py Layer: exactly the attributes assigned in Layer.__init__.  The
class defines no has_timeline attribute or property. -/
structure Layer where
  name : String
  type : LayerType
  blend_mode : BlendMode
  timeline_start : Option Nat
  timeline_unknown1 : Option Nat
  timeline_duration : Option Nat
  timeline_unknown2 : Option Nat
  position_keyframes : Option (List PositionKeyframe)
  anchor_point_keyframes : Option (List AnchorPointKeyframe)
  colour_keyframes : Option (List ColourKeyframe)
  scale_keyframes : Option (List ScaleKeyframe)
  alpha_keyframes : Option (List AlphaKeyframe)
  rotation_x_keyframes : Option (List RotationKeyframe)
  rotation_y_keyframes : Option (List RotationKeyframe)
  rotation_z_keyframes : Option (List RotationKeyframe)
  size_keyframes : Option (List SizeKeyframe)
  markers : Option (List Marker)
deriving DecidableEq, Repr

/-- aep.py Composition. -/
structure Composition where
  name : String
  width : Nat
  height : Nat
  layers : List Layer
deriving DecidableEq, Repr

/-- aep.py Project (the plain record; construction-time reference
validation is Project.mk_checked below). -/
structure Project where
  textures : List Texture
  compositions : List Composition
deriving DecidableEq, Repr

/-- aep.py Layer.asset_name: self.name.split(hyphen)[1] when the name
contains a hyphen, else the full name.  Python list index 1 of the split is
the field between the first and the second hyphen. -/
def Layer.asset_name (l : Layer) : String :=
  if l.name.data.contains '-' then
    String.mk ((splitOnChar '-' l.name.data).getD 1 [])
  else
    l.name

/-- Python attribute lookup of has_timeline on a Layer object: the Layer
class in aep.py assigns no such attribute in __init__ and defines no such
property or class attribute, so the lookup always raises AttributeError. -/
def Layer.getattrHasTimeline (_ : Layer) : Except String Bool :=
  .error "AttributeError: Layer object has no attribute has_timeline"

/-- aep.py Project.__init__ reference validation: every texture layer must
name an existing texture and every composition layer an existing
composition, via Layer.asset_name. -/
def validateLayers (textures : List Texture) (compositions : List Composition) :
    List Layer → Except String Unit
  | [] => .ok ()
  | l :: ls =>
    match l.type with
    | LayerType.TEXTURE =>
      if textures.any (fun t => t.name = l.asset_name) then
        validateLayers textures compositions ls
      else
        .error ("ValueError: layer " ++ l.name ++ " references unknown texture " ++ l.asset_name)
    | LayerType.COMPOSITION =>
      if compositions.any (fun c => c.name = l.asset_name) then
        validateLayers textures compositions ls
      else
        .error ("ValueError: layer " ++ l.name ++ " references unknown composition " ++ l.asset_name)
    | LayerType.COLOUR => validateLayers textures compositions ls

/-- aep.py Project.__init__ validation over all compositions. -/
def validateCompositions (textures : List Texture) (compositions : List Composition) :
    List Composition → Except String Unit
  | [] => .ok ()
  | c :: cs => do
    validateLayers textures compositions c.layers
    validateCompositions textures compositions cs

/-- aep.py Project(textures, compositions): builds the project after the
reference validation of __init__. -/
def Project.mk_checked (textures : List Texture) (compositions : List Composition) :
    Except String Project := do
  validateCompositions textures compositions compositions
  .ok ⟨textures, compositions⟩

/-! ## Binary constants (src/aep/bin.py) -/

/-- bin.py Architecture. -/
inductive Architecture
  | X86
  | X64
deriving DecidableEq, Repr

/-- bin.py POINTER_SIZE. -/
def POINTER_SIZE : Architecture → Nat
  | .X86 => 4
  | .X64 => 8

/-- bin.py COUNT_SIZE. -/
def COUNT_SIZE : Architecture → Nat
  | .X86 => 4
  | .X64 => 8

/-- bin.py ASSET_SIZE. -/
def ASSET_SIZE : Architecture → Nat
  | .X86 => 20
  | .X64 => 32

/-- bin.py ASSET_TERMINATOR_SIZE. -/
def ASSET_TERMINATOR_SIZE : Architecture → Nat
  | .X86 => 16
  | .X64 => 16

/-- bin.py LAYERS_SECTION_POINTER_SIZE. -/
def LAYERS_SECTION_POINTER_SIZE : Architecture → Nat
  | .X86 => 16
  | .X64 => 16

/-- bin.py LAYER_SIZE. -/
def LAYER_SIZE : Architecture → Nat
  | .X86 => 56
  | .X64 => 112

/-- bin.py LAYER_TIMELINE_SIZE. -/
def LAYER_TIMELINE_SIZE : Architecture → Nat
  | .X86 => 12
  | .X64 => 12

/-- bin.py POSITION_KEYFRAME_SIZE. -/
def POSITION_KEYFRAME_SIZE : Architecture → Nat
  | .X86 => 16
  | .X64 => 16

/-- bin.py ANCHOR_POINT_KEYFRAME_SIZE. -/
def ANCHOR_POINT_KEYFRAME_SIZE : Architecture → Nat
  | .X86 => 16
  | .X64 => 16

/-- bin.py COLOUR_KEYFRAME_SIZE. -/
def COLOUR_KEYFRAME_SIZE : Architecture → Nat
  | .X86 => 8
  | .X64 => 8

/-- bin.py SCALE_KEYFRAME_SIZE. -/
def SCALE_KEYFRAME_SIZE : Architecture → Nat
  | .X86 => 12
  | .X64 => 12

/-- bin.py ALPHA_KEYFRAME_SIZE. -/
def ALPHA_KEYFRAME_SIZE : Architecture → Nat
  | .X86 => 8
  | .X64 => 8

/-- bin.py ROTATION_KEYFRAME_SIZE. -/
def ROTATION_KEYFRAME_SIZE : Architecture → Nat
  | .X86 => 8
  | .X64 => 8

/-- bin.py SIZE_KEYFRAME_SIZE. -/
def SIZE_KEYFRAME_SIZE : Architecture → Nat
  | .X86 => 8
  | .X64 => 8

/-- bin.py MARKER_KEYFRAME_SIZE. -/
def MARKER_KEYFRAME_SIZE : Architecture → Nat
  | .X86 => 12
  | .X64 => 16

/-- bin.py LAYER_TYPES: high-nibble code to LayerType. -/
def LAYER_TYPES (code : Nat) : Except String LayerType :=
  if code = 0x4 then .ok LayerType.COMPOSITION
  else if code = 0x6 then .ok LayerType.COLOUR
  else if code = 0x7 then .ok LayerType.TEXTURE
  else .error ("KeyError: unknown layer type code " ++ toString code)

/-- bin.py BLEND_MODES: low-nibble code to BlendMode. -/
def BLEND_MODES (code : Nat) : Except String BlendMode :=
  if code = 0x2 then .ok BlendMode.NORMAL
  else if code = 0x4 then .ok BlendMode.ADDITIVE
  else if code = 0x5 then .ok BlendMode.UNKNOWN
  else .error ("KeyError: unknown blend mode code " ++ toString code)

/-- Reverse lookup in LAYER_TYPES as bin.py BinaryEncoder._encode_layer
performs it (first key whose value matches). -/
def layerTypeCode : LayerType → Nat
  | LayerType.COMPOSITION => 0x4
  | LayerType.COLOUR => 0x6
  | LayerType.TEXTURE => 0x7

/-- Reverse lookup in BLEND_MODES as bin.py BinaryEncoder._encode_layer
performs it (first key whose value matches). -/
def blendModeCode : BlendMode → Nat
  | BlendMode.NORMAL => 0x2
  | BlendMode.ADDITIVE => 0x4
  | BlendMode.UNKNOWN => 0x5

/-- bin.py AssetType. -/
inductive AssetType
  | TEXTURE
  | COMPOSITION
deriving DecidableEq, Repr

/-- Python AssetType(v): value lookup of the enum, raising ValueError for a
value outside 0 and 1. -/
def pyAssetType (v : Nat) : Except String AssetType :=
  if v = 0 then .ok AssetType.TEXTURE
  else if v = 1 then .ok AssetType.COMPOSITION
  else .error ("ValueError: " ++ toString v ++ " is not a valid AssetType")

/-- Exact rational value of an IEEE-754 single-precision bit pattern; the
exponent field 255 (infinities and NaNs) has no rational value and is
returned as an error, matching the note at the top of the file. -/
def f32FromBits (bits : Nat) : Except String ℚ :=
  let sign : ℚ := if bits / 2 ^ 31 % 2 = 1 then -1 else 1
  let expField : Nat := bits / 2 ^ 23 % 2 ^ 8
  let frac : Nat := bits % 2 ^ 23
  if expField = 255 then .error "f32 infinity or NaN has no rational value"
  else if expField = 0 then .ok (sign * (frac : ℚ) / 2 ^ 23 / 2 ^ 126)
  else .ok (sign * ((2 ^ 23 + frac : Nat) : ℚ) / 2 ^ 23 * 2 ^ expField / 2 ^ 127)

/-! ## Binary low-level reading (bin.py BinaryReader) -/

/-- bin.py BinaryReader: the whole file as a byte buffer plus a cursor. -/
structure BinaryReader where
  file : List Nat
  pos : Nat
deriving DecidableEq, Repr

/-- BinaryReader.seek. -/
def BinaryReader.seek (r : BinaryReader) (pointer : Nat) : BinaryReader :=
  { r with pos := pointer }

/-- BinaryReader.tell. -/
def BinaryReader.tell (r : BinaryReader) : Nat := r.pos

/-- BinaryReader.peek: up to n bytes at the cursor, without advancing. -/
def BinaryReader.peek (r : BinaryReader) (n : Nat) : List Nat :=
  (r.file.drop r.pos).take n

/-- Python file.read(n): the available bytes (possibly fewer than n at end
of file), advancing the cursor by the number of bytes obtained. -/
def BinaryReader.readBytes (r : BinaryReader) (n : Nat) : List Nat × BinaryReader :=
  let bs := (r.file.drop r.pos).take n
  (bs, { r with pos := r.pos + bs.length })

/-- BinaryReader.read_u8. -/
def BinaryReader.read_u8 (r : BinaryReader) : Nat × BinaryReader :=
  let (bs, r) := r.readBytes 1
  (fromBytesLE bs, r)

/-- BinaryReader.read_u16. -/
def BinaryReader.read_u16 (r : BinaryReader) : Nat × BinaryReader :=
  let (bs, r) := r.readBytes 2
  (fromBytesLE bs, r)

/-- BinaryReader.read_u32. -/
def BinaryReader.read_u32 (r : BinaryReader) : Nat × BinaryReader :=
  let (bs, r) := r.readBytes 4
  (fromBytesLE bs, r)

/-- BinaryReader.read_f32: unpack an IEEE-754 single from 4 little-endian
bytes. -/
def BinaryReader.read_f32 (r : BinaryReader) : Except String (ℚ × BinaryReader) := do
  let (bs, r) := r.readBytes 4
  let q ← f32FromBits (fromBytesLE bs)
  .ok (q, r)

/-- BinaryReader.read_pointer. -/
def BinaryReader.read_pointer (arch : Architecture) (r : BinaryReader) : Nat × BinaryReader :=
  let (bs, r) := r.readBytes (POINTER_SIZE arch)
  (fromBytesLE bs, r)

/-- BinaryReader.read_count. -/
def BinaryReader.read_count (arch : Architecture) (r : BinaryReader) : Nat × BinaryReader :=
  let (bs, r) := r.readBytes (COUNT_SIZE arch)
  (fromBytesLE bs, r)

/-- The NUL-scanning loop of BinaryReader.read_string, with fuel bounding
the number of iterations (the Python loop does not terminate on a buffer
with no NUL after the pointer; enough fuel makes the model agree with the
source on every input on which the source terminates). -/
def readStringLoop : Nat → BinaryReader → List Char → Except String (List Char × BinaryReader)
  | 0, _, _ => .error "model fuel exhausted in read_string"
  | fuel + 1, r, acc =>
    if r.peek 1 ≠ [0] then
      let (b, r) := r.read_u8
      readStringLoop fuel r (acc ++ [Char.ofNat b])
    else
      .ok (acc, r)

/-- BinaryReader.read_string: read a pointer, dereference it, scan bytes to
the NUL, restore the cursor. -/
def BinaryReader.read_string (arch : Architecture) (fuel : Nat) (r : BinaryReader) :
    Except String (String × BinaryReader) := do
  let (pointer, r) := r.read_pointer arch
  let returnCursor := r.tell
  let r := r.seek pointer
  let (cs, r) ← readStringLoop fuel r []
  .ok (String.mk cs, r.seek returnCursor)

/-! ## Binary decoder (bin.py BinaryDecoder) -/

/-- bin.py BinaryDecoder._decode_position_keyframe. -/
def decodePositionKeyframe (arch : Architecture) (size frame : Nat) (r : BinaryReader) :
    Except String (PositionKeyframe × BinaryReader) := do
  if size ≠ POSITION_KEYFRAME_SIZE arch then
    .error ("position keyframe not " ++ toString (POSITION_KEYFRAME_SIZE arch) ++ " bytes (" ++ toString size ++ ")")
  else do
    let (x, r) ← r.read_f32
    let (y, r) ← r.read_f32
    let (z, r) ← r.read_f32
    .ok (⟨frame, x, y, z⟩, r)

/-- bin.py BinaryDecoder._decode_anchor_point_keyframe: wire values divided
by 100. -/
def decodeAnchorPointKeyframe (arch : Architecture) (size frame : Nat) (r : BinaryReader) :
    Except String (AnchorPointKeyframe × BinaryReader) := do
  if size ≠ ANCHOR_POINT_KEYFRAME_SIZE arch then
    .error ("anchor point keyframe not " ++ toString (ANCHOR_POINT_KEYFRAME_SIZE arch) ++ " bytes (" ++ toString size ++ ")")
  else do
    let (x, r) ← r.read_f32
    let (y, r) ← r.read_f32
    let (z, r) ← r.read_f32
    .ok (⟨frame, x / 100, y / 100, z / 100⟩, r)

/-- bin.py BinaryDecoder._decode_colour_keyframe: size 8 reads four u8
components, size 20 reads four f32 components each mapped through
Python int(f * 255); any other size is an error. -/
def decodeColourKeyframe (size frame : Nat) (r : BinaryReader) :
    Except String (ColourKeyframe × BinaryReader) :=
  if size ≠ 8 ∧ size ≠ 20 then
    .error ("colour keyframe not 8 or 20 bytes (" ++ toString size ++ ")")
  else if size = 8 then
    let (rr, r) := r.read_u8
    let (g, r) := r.read_u8
    let (b, r) := r.read_u8
    let (a, r) := r.read_u8
    .ok (⟨frame, rr, g, b, a⟩, r)
  else do
    let (rr, r) ← r.read_f32
    let (g, r) ← r.read_f32
    let (b, r) ← r.read_f32
    let (a, r) ← r.read_f32
    .ok (⟨frame, pyTrunc (rr * 255), pyTrunc (g * 255), pyTrunc (b * 255), pyTrunc (a * 255)⟩, r)

/-- bin.py BinaryDecoder._decode_scale_keyframe: wire values divided by
100. -/
def decodeScaleKeyframe (arch : Architecture) (size frame : Nat) (r : BinaryReader) :
    Except String (ScaleKeyframe × BinaryReader) := do
  if size ≠ SCALE_KEYFRAME_SIZE arch then
    .error ("scale keyframe not " ++ toString (SCALE_KEYFRAME_SIZE arch) ++ " bytes (" ++ toString size ++ ")")
  else do
    let (x, r) ← r.read_f32
    let (y, r) ← r.read_f32
    .ok (⟨frame, x / 100, y / 100⟩, r)

/-- bin.py BinaryDecoder._decode_alpha_keyframe: wire value divided by
100. -/
def decodeAlphaKeyframe (arch : Architecture) (size frame : Nat) (r : BinaryReader) :
    Except String (AlphaKeyframe × BinaryReader) := do
  if size ≠ ALPHA_KEYFRAME_SIZE arch then
    .error ("alpha keyframe not " ++ toString (ALPHA_KEYFRAME_SIZE arch) ++ " bytes (" ++ toString size ++ ")")
  else do
    let (v, r) ← r.read_f32
    .ok (⟨frame, v / 100⟩, r)

/-- bin.py BinaryDecoder._decode_rotation_keyframe. -/
def decodeRotationKeyframe (arch : Architecture) (size frame : Nat) (r : BinaryReader) :
    Except String (RotationKeyframe × BinaryReader) := do
  if size ≠ ROTATION_KEYFRAME_SIZE arch then
    .error ("rotation keyframe not " ++ toString (ROTATION_KEYFRAME_SIZE arch) ++ " bytes (" ++ toString size ++ ")")
  else do
    let (d, r) ← r.read_f32
    .ok (⟨frame, d⟩, r)

/-- bin.py BinaryDecoder._decode_size_keyframe. -/
def decodeSizeKeyframe (arch : Architecture) (size frame : Nat) (r : BinaryReader) :
    Except String (SizeKeyframe × BinaryReader) :=
  if size ≠ SIZE_KEYFRAME_SIZE arch then
    .error ("size keyframe not " ++ toString (SIZE_KEYFRAME_SIZE arch) ++ " bytes (" ++ toString size ++ ")")
  else
    let (w, r) := r.read_u16
    let (h, r) := r.read_u16
    .ok (⟨frame, w, h⟩, r)

/-- bin.py BinaryDecoder._decode_marker_keyframe.  The source error message
interpolates the boolean size != MARKER_KEYFRAME_SIZE[arch] instead of the
expected size; the model reproduces that interpolated boolean (always True
on this path). -/
def decodeMarkerKeyframe (arch : Architecture) (fuel : Nat) (size frame : Nat) (r : BinaryReader) :
    Except String (Marker × BinaryReader) := do
  if size ≠ MARKER_KEYFRAME_SIZE arch then
    .error ("marker keyframe not True bytes (" ++ toString size ++ ")")
  else do
    let (unknown, r) := r.read_u32
    let (name, r) ← r.read_string arch fuel
    .ok (⟨frame, unknown, name⟩, r)

/-- The while loop of bin.py BinaryDecoder._decode_keyframes: read size and
frame headers until the sentinel frame 0xffff, dispatch to the variant
decoder, and reset the cursor to item start plus declared size after each
item.  Fuel bounds the iterations (the Python loop does not terminate when
a declared size of 0 makes the cursor stand still). -/
def decodeKeyframesLoop {α : Type}
    (decode : Nat → Nat → BinaryReader → Except String (α × BinaryReader)) :
    Nat → BinaryReader → List α → Except String (List α × BinaryReader)
  | 0, _, _ => .error "model fuel exhausted in decode_keyframes"
  | fuel + 1, r, acc =>
    let itemPointer := r.tell
    let (size, r) := r.read_u16
    let (frame, r) := r.read_u16
    if frame = 0xffff then
      .ok (acc, r)
    else do
      let (k, r) ← decode size frame r
      decodeKeyframesLoop decode fuel (r.seek (itemPointer + size)) (acc ++ [k])

/-- bin.py BinaryDecoder._decode_keyframes: a null pointer is an absent
track; otherwise seek to the list and run the sentinel-terminated loop.
A pointer leading directly to a sentinel yields some [] (the empty list),
not none. -/
def decodeKeyframes {α : Type} (fuel : Nat) (pointer : Nat)
    (decode : Nat → Nat → BinaryReader → Except String (α × BinaryReader))
    (r : BinaryReader) : Except String (Option (List α) × BinaryReader) :=
  if pointer = 0 then
    .ok (none, r)
  else do
    let (ks, r) ← decodeKeyframesLoop decode fuel (r.seek pointer) []
    .ok (some ks, r)

/-- The timeline part of bin.py BinaryDecoder._decode_layer (the block
guarded by timeline_pointer != 0): read the 12-byte record, validate the
size field and that unknown2 equals 4096. -/
def decodeLayerTimeline (arch : Architecture) (name : String) (timelinePointer : Nat)
    (r : BinaryReader) :
    Except String ((Option Nat × Option Nat × Option Nat × Option Nat) × BinaryReader) :=
  if timelinePointer ≠ 0 then
    let r := r.seek timelinePointer
    let (timelineSize, r) := r.read_u16
    let (start, r) := r.read_u16
    let (unknown1, r) := r.read_u16
    let (duration, r) := r.read_u16
    let (unknown2, r) := r.read_u32
    if timelineSize ≠ LAYER_TIMELINE_SIZE arch then
      .error ("layer " ++ name ++ " timeline not " ++ toString (LAYER_TIMELINE_SIZE arch) ++ " bytes (" ++ toString timelineSize ++ ")")
    else if unknown2 ≠ 4096 then
      .error ("layer " ++ name ++ " unknown2 not 4096 (" ++ toString unknown2 ++ ")")
    else
      .ok ((some start, some unknown1, some duration, some unknown2), r)
  else
    .ok ((none, none, none, none), r)

/-- bin.py BinaryDecoder._decode_layer. -/
def decodeLayer (arch : Architecture) (fuel : Nat) (r : BinaryReader) :
    Except String (Layer × BinaryReader) := do
  let pointer := r.tell
  let (size, r) := r.read_u16
  let (typeBlendMode, r) := r.read_u8
  let type ← LAYER_TYPES (typeBlendMode / 16 % 16)
  let blendMode ← BLEND_MODES (typeBlendMode % 16)
  let (pad8, r) := r.read_u8
  if pad8 ≠ 0 then .error "AssertionError: layer u8 padding not zero"
  else do
  let r ← match arch with
    | Architecture.X64 =>
      let (pad32, r) := r.read_u32
      if pad32 ≠ 0 then Except.error "AssertionError: layer u32 padding not zero" else .ok r
    | Architecture.X86 => .ok r
  let (name, r) ← r.read_string arch fuel
  let (timelinePointer, r) := r.read_pointer arch
  let (positionPointer, r) := r.read_pointer arch
  let (anchorPointPointer, r) := r.read_pointer arch
  let (colourPointer, r) := r.read_pointer arch
  let (scalePointer, r) := r.read_pointer arch
  let (alphaPointer, r) := r.read_pointer arch
  let (unknownPointer, r) := r.read_pointer arch
  let (rotationXPointer, r) := r.read_pointer arch
  let (rotationYPointer, r) := r.read_pointer arch
  let (rotationZPointer, r) := r.read_pointer arch
  let (sizePointer, r) := r.read_pointer arch
  let (markerPointer, r) := r.read_pointer arch
  if size ≠ LAYER_SIZE arch then
    .error ("layer " ++ name ++ " not " ++ toString (LAYER_SIZE arch) ++ " bytes (" ++ toString size ++ ")")
  else do
  let (timeline, r) ← decodeLayerTimeline arch name timelinePointer r
  let (positionKeyframes, r) ← decodeKeyframes fuel positionPointer (decodePositionKeyframe arch) r
  let (anchorPointKeyframes, r) ← decodeKeyframes fuel anchorPointPointer (decodeAnchorPointKeyframe arch) r
  let (colourKeyframes, r) ← decodeKeyframes fuel colourPointer decodeColourKeyframe r
  let (scaleKeyframes, r) ← decodeKeyframes fuel scalePointer (decodeScaleKeyframe arch) r
  let (alphaKeyframes, r) ← decodeKeyframes fuel alphaPointer (decodeAlphaKeyframe arch) r
  if unknownPointer ≠ 0 then
    .error ("layer " ++ name ++ " has unknown keyframes")
  else do
  let (rotationXKeyframes, r) ← decodeKeyframes fuel rotationXPointer (decodeRotationKeyframe arch) r
  let (rotationYKeyframes, r) ← decodeKeyframes fuel rotationYPointer (decodeRotationKeyframe arch) r
  let (rotationZKeyframes, r) ← decodeKeyframes fuel rotationZPointer (decodeRotationKeyframe arch) r
  let (sizeKeyframes, r) ← decodeKeyframes fuel sizePointer (decodeSizeKeyframe arch) r
  let (markers, r) ← decodeKeyframes fuel markerPointer (decodeMarkerKeyframe arch fuel) r
  let r := r.seek (pointer + size)
  .ok (⟨name, type, blendMode,
        timeline.1, timeline.2.1, timeline.2.2.1, timeline.2.2.2,
        positionKeyframes, anchorPointKeyframes, colourKeyframes, scaleKeyframes,
        alphaKeyframes, rotationXKeyframes, rotationYKeyframes, rotationZKeyframes,
        sizeKeyframes, markers⟩, r)

/-- An asset as collected by bin.py BinaryDecoder.decode before the
isinstance partition. -/
inductive Asset
  | tex (t : Texture)
  | comp (c : Composition)
deriving DecidableEq, Repr

/-- The per-composition layer loop of bin.py BinaryDecoder._decode_asset. -/
def decodeLayersN (arch : Architecture) (fuel : Nat) :
    Nat → BinaryReader → List Layer → Except String (List Layer × BinaryReader)
  | 0, r, acc => .ok (acc, r)
  | n + 1, r, acc => do
    let (l, r) ← decodeLayer arch fuel r
    decodeLayersN arch fuel n r (acc ++ [l])

/-- bin.py BinaryDecoder._decode_asset. -/
def decodeAsset (arch : Architecture) (fuel : Nat) (r : BinaryReader) :
    Except String (Asset × BinaryReader) := do
  let pointer := r.tell
  let (size, type, name, width, height, numLayers, layersPointer, r) ←
    match arch with
    | Architecture.X86 => do
      let (size, r) := r.read_u16
      let (typeVal, r) := r.read_u16
      let type ← pyAssetType typeVal
      let (name, r) ← r.read_string arch fuel
      let (width, r) := r.read_u16
      let (height, r) := r.read_u16
      let (numLayers, r) := r.read_count arch
      let (layersPointer, r) := r.read_pointer arch
      Except.ok (size, type, name, width, height, numLayers, layersPointer, r)
    | Architecture.X64 => do
      let (name, r) ← r.read_string arch fuel
      let (size, r) := r.read_u16
      let (typeVal, r) := r.read_u16
      let type ← pyAssetType typeVal
      let (width, r) := r.read_u16
      let (height, r) := r.read_u16
      let (layersPointer, r) := r.read_pointer arch
      let (numLayers, r) := r.read_count arch
      Except.ok (size, type, name, width, height, numLayers, layersPointer, r)
  if size ≠ ASSET_SIZE arch then
    .error ("asset " ++ name ++ " not " ++ toString (ASSET_SIZE arch) ++ " bytes (" ++ toString size ++ ")")
  else do
  let (asset, r) ←
    match type with
    | AssetType.TEXTURE =>
      if numLayers ≠ 0 ∨ layersPointer ≠ 0 then
        Except.error ("texture " ++ name ++ " has non-zero layers")
      else
        Except.ok (Asset.tex ⟨name, width, height⟩, r)
    | AssetType.COMPOSITION =>
      if layersPointer = 0 then
        Except.error ("composition " ++ name ++ " has null layers pointers")
      else do
        let r := r.seek layersPointer
        let (layers, r) ← decodeLayersN arch fuel numLayers r []
        Except.ok (Asset.comp ⟨name, width, height, layers⟩, r)
  let r := r.seek (pointer + size)
  .ok (asset, r)

/-- The asset-table loop of bin.py BinaryDecoder.decode: stop when the next
16 bytes are all NUL, else decode an asset.  Fuel bounds the iterations. -/
def decodeAssetsLoop (arch : Architecture) :
    Nat → BinaryReader → List Asset → Except String (List Asset)
  | 0, _, _ => .error "model fuel exhausted in decode"
  | fuel + 1, r, acc =>
    if r.peek (ASSET_TERMINATOR_SIZE arch) ≠ List.replicate (ASSET_TERMINATOR_SIZE arch) 0 then do
      let (a, r) ← decodeAsset arch fuel r
      decodeAssetsLoop arch fuel r (acc ++ [a])
    else
      .ok acc

/-- bin.py BinaryDecoder.decode over an in-memory byte buffer: walk the
asset table, partition into textures and compositions preserving order, and
run the Project constructor validation. -/
def binDecode (arch : Architecture) (fuel : Nat) (file : List Nat) : Except String Project := do
  let assets ← decodeAssetsLoop arch fuel ⟨file, 0⟩ []
  let textures := assets.filterMap (fun a => match a with | Asset.tex t => some t | _ => none)
  let compositions := assets.filterMap (fun a => match a with | Asset.comp c => some c | _ => none)
  Project.mk_checked textures compositions

/-! ## Binary low-level writing (bin.py BinaryWriter, BinaryStringWriter) -/

/-- bin.py BinaryWriter: a growable in-memory byte buffer. -/
structure BinaryWriter where
  buffer : List Nat
deriving DecidableEq, Repr

/-- BinaryWriter.tell. -/
def BinaryWriter.tell (w : BinaryWriter) : Nat := w.buffer.length

/-- BinaryWriter.write_u8. -/
def BinaryWriter.write_u8 (w : BinaryWriter) (v : Nat) : Except String BinaryWriter := do
  let bs ← toBytesLE 1 v
  .ok ⟨w.buffer ++ bs⟩

/-- BinaryWriter.write_u16. -/
def BinaryWriter.write_u16 (w : BinaryWriter) (v : Nat) : Except String BinaryWriter := do
  let bs ← toBytesLE 2 v
  .ok ⟨w.buffer ++ bs⟩

/-- BinaryWriter.write_u32. -/
def BinaryWriter.write_u32 (w : BinaryWriter) (v : Nat) : Except String BinaryWriter := do
  let bs ← toBytesLE 4 v
  .ok ⟨w.buffer ++ bs⟩

/-- BinaryWriter.write_pointer. -/
def BinaryWriter.write_pointer (arch : Architecture) (w : BinaryWriter) (v : Nat) :
    Except String BinaryWriter := do
  let bs ← toBytesLE (POINTER_SIZE arch) v
  .ok ⟨w.buffer ++ bs⟩

/-- BinaryWriter.write_count. -/
def BinaryWriter.write_count (arch : Architecture) (w : BinaryWriter) (v : Nat) :
    Except String BinaryWriter := do
  let bs ← toBytesLE (COUNT_SIZE arch) v
  .ok ⟨w.buffer ++ bs⟩

/-- BinaryWriter.write_terminator: size zero bytes. -/
def BinaryWriter.write_terminator (w : BinaryWriter) (size : Nat) : BinaryWriter :=
  ⟨w.buffer ++ List.replicate size 0⟩

/-- The IEEE-754 single bit pattern of an exactly representable normal
rational (or zero); none when the value would need rounding, a subnormal or
is out of range. -/
def f32ExactBits (q : ℚ) : Option Nat :=
  if q = 0 then some 0
  else
    let s : Nat := if q < 0 then 1 else 0
    (List.range 254).findSome? fun e0 =>
      let expField : Nat := e0 + 1
      let m : ℚ := |q| * (2 : ℚ) ^ (150 : ℤ) / (2 : ℚ) ^ (expField : ℤ)
      if m.den = 1 ∧ 2 ^ 23 ≤ m.num ∧ m.num < 2 ^ 24 then
        some (s * 2 ^ 31 + expField * 2 ^ 23 + (m.num.toNat - 2 ^ 23))
      else
        none

/-- BinaryWriter.write_f32: pack an IEEE-754 single.  Only exactly
representable values are modelled; through BinaryEncoder.encode this
operation is unreachable, because the phase-1 size calculation fails for
every project containing a layer before any keyframe is written. -/
def BinaryWriter.write_f32 (w : BinaryWriter) (q : ℚ) : Except String BinaryWriter :=
  match f32ExactBits q with
  | some bits => do
    let bs ← toBytesLE 4 bits
    .ok ⟨w.buffer ++ bs⟩
  | none => .error "f32 rounding not modelled"

/-- Association-list lookup standing for Python dict access keyed by
string value. -/
def assocFind : List (String × Nat) → String → Option Nat
  | [], _ => none
  | (k, v) :: rest, n => if k = n then some v else assocFind rest n

/-- bin.py BinaryStringWriter: a byte buffer plus the dict from string
value to the relative offset of its first write. -/
structure BinaryStringWriter where
  buffer : List Nat
  pointers : List (String × Nat)
deriving DecidableEq, Repr

/-- BinaryStringWriter.tell. -/
def BinaryStringWriter.tell (w : BinaryStringWriter) : Nat := w.buffer.length

/-- bin.py BinaryStringWriter.write_string: on first occurrence record the
current offset and append the ASCII bytes plus a NUL; always return the
first-seen offset. -/
def BinaryStringWriter.write_string (w : BinaryStringWriter) (value : String) :
    Except String (Nat × BinaryStringWriter) :=
  match assocFind w.pointers value with
  | some p => .ok (p, w)
  | none => do
    let p := w.tell
    let bs ← encodeAscii value
    .ok (p, ⟨w.buffer ++ bs ++ [0], w.pointers ++ [(value, p)]⟩)

/-! ## Binary encoder (bin.py BinaryEncoder) -/

/-- bin.py SectionPointers: the four section sizes and the four absolute
base offsets derived from them. -/
structure SectionPointers where
  assets_size : Nat
  layers_size : Nat
  keyframes_size : Nat
  strings_size : Nat
  assets : Nat
  layers : Nat
  keyframes : Nat
  strings : Nat
deriving DecidableEq, Repr

/-- SectionPointers.__init__: assets at 0, then each section after the
previous one. -/
def mkSectionPointers (assetsSize layersSize keyframesSize stringsSize : Nat) : SectionPointers :=
  { assets_size := assetsSize
    layers_size := layersSize
    keyframes_size := keyframesSize
    strings_size := stringsSize
    assets := 0
    layers := 0 + assetsSize
    keyframes := 0 + assetsSize + layersSize
    strings := 0 + assetsSize + layersSize + keyframesSize }

/-- bin.py BinaryEncoder._get_string_encoded_size: ASCII characters plus
the NUL terminator. -/
def getStringEncodedSize (s : String) : Except String Nat := do
  let bs ← encodeAscii s
  .ok (bs.length + 1)

/-- The running totals of bin.py BinaryEncoder._get_section_pointers. -/
structure SizeAcc where
  assets_size : Nat
  layers_size : Nat
  keyframes_size : Nat
  strings_size : Nat
  existing_strings : List String
deriving DecidableEq, Repr

/-- The recurring dedup pattern of _get_section_pointers: count a string
only when it was not counted before. -/
def phase1AddString (acc : SizeAcc) (name : String) : Except String SizeAcc :=
  if name ∈ acc.existing_strings then .ok acc
  else do
    let n ← getStringEncodedSize name
    .ok { acc with
          strings_size := acc.strings_size + n
          existing_strings := acc.existing_strings ++ [name] }

/-- The marker-name loop of _get_section_pointers. -/
def phase1MarkerNames (acc : SizeAcc) : List Marker → Except String SizeAcc
  | [] => .ok acc
  | m :: ms => do
    let acc ← phase1AddString acc m.name
    phase1MarkerNames acc ms

/-- The per-layer body of _get_section_pointers.  It reads
layer.has_timeline, an attribute the Layer class never defines, so it
always fails with an AttributeError. -/
def phase1Layer (arch : Architecture) (acc : SizeAcc) (layer : Layer) : Except String SizeAcc := do
  let acc := { acc with layers_size := acc.layers_size + LAYER_SIZE arch }
  let acc ← phase1AddString acc layer.name
  let hasTimeline ← layer.getattrHasTimeline
  let acc := if hasTimeline then
      { acc with keyframes_size := acc.keyframes_size + LAYER_TIMELINE_SIZE arch }
    else acc
  let acc := match layer.position_keyframes with
    | some ks => { acc with keyframes_size := acc.keyframes_size + POSITION_KEYFRAME_SIZE arch * (ks.length + 1) }
    | none => acc
  let acc := match layer.anchor_point_keyframes with
    | some ks => { acc with keyframes_size := acc.keyframes_size + ANCHOR_POINT_KEYFRAME_SIZE arch * (ks.length + 1) }
    | none => acc
  let acc := match layer.colour_keyframes with
    | some ks => { acc with keyframes_size := acc.keyframes_size + COLOUR_KEYFRAME_SIZE arch * (ks.length + 1) }
    | none => acc
  let acc := match layer.scale_keyframes with
    | some ks => { acc with keyframes_size := acc.keyframes_size + SCALE_KEYFRAME_SIZE arch * (ks.length + 1) }
    | none => acc
  let acc := match layer.alpha_keyframes with
    | some ks => { acc with keyframes_size := acc.keyframes_size + ALPHA_KEYFRAME_SIZE arch * (ks.length + 1) }
    | none => acc
  let acc := match layer.rotation_x_keyframes with
    | some ks => { acc with keyframes_size := acc.keyframes_size + ROTATION_KEYFRAME_SIZE arch * (ks.length + 1) }
    | none => acc
  let acc := match layer.rotation_y_keyframes with
    | some ks => { acc with keyframes_size := acc.keyframes_size + ROTATION_KEYFRAME_SIZE arch * (ks.length + 1) }
    | none => acc
  let acc := match layer.rotation_z_keyframes with
    | some ks => { acc with keyframes_size := acc.keyframes_size + ROTATION_KEYFRAME_SIZE arch * (ks.length + 1) }
    | none => acc
  let acc := match layer.size_keyframes with
    | some ks => { acc with keyframes_size := acc.keyframes_size + SIZE_KEYFRAME_SIZE arch * (ks.length + 1) }
    | none => acc
  match layer.markers with
  | some ks => do
    let acc := { acc with keyframes_size := acc.keyframes_size + MARKER_KEYFRAME_SIZE arch * (ks.length + 1) }
    phase1MarkerNames acc ks
  | none => .ok acc

/-- The layer loop of _get_section_pointers for one composition. -/
def phase1Layers (arch : Architecture) (acc : SizeAcc) : List Layer → Except String SizeAcc
  | [] => .ok acc
  | l :: ls => do
    let acc ← phase1Layer arch acc l
    phase1Layers arch acc ls

/-- The texture loop of _get_section_pointers. -/
def phase1Textures (arch : Architecture) (acc : SizeAcc) : List Texture → Except String SizeAcc
  | [] => .ok acc
  | t :: ts => do
    let acc := { acc with assets_size := acc.assets_size + ASSET_SIZE arch }
    let acc ← phase1AddString acc t.name
    phase1Textures arch acc ts

/-- The composition loop of _get_section_pointers. -/
def phase1Compositions (arch : Architecture) (acc : SizeAcc) : List Composition → Except String SizeAcc
  | [] => .ok acc
  | c :: cs => do
    let acc := { acc with assets_size := acc.assets_size + ASSET_SIZE arch }
    let acc ← phase1AddString acc c.name
    let acc ← phase1Layers arch acc c.layers
    phase1Compositions arch acc cs

/-- bin.py BinaryEncoder._get_section_pointers (phase 1): sum exact
per-section sizes, then add the assets terminator and the trailing
layers-section pointer block to the assets size. -/
def getSectionPointers (arch : Architecture) (project : Project) : Except String SectionPointers := do
  let acc : SizeAcc := ⟨0, 0, 0, 0, []⟩
  let acc ← phase1Textures arch acc project.textures
  let acc ← phase1Compositions arch acc project.compositions
  let assetsSize := acc.assets_size + ASSET_TERMINATOR_SIZE arch + LAYERS_SECTION_POINTER_SIZE arch
  .ok (mkSectionPointers assetsSize acc.layers_size acc.keyframes_size acc.strings_size)

/-- Python AssetType.value. -/
def AssetType.value : AssetType → Nat
  | AssetType.TEXTURE => 0
  | AssetType.COMPOSITION => 1

/-- bin.py BinaryEncoder._encode_asset: dedup-write the name, then emit the
architecture-specific field order. -/
def encodeAsset (arch : Architecture) (sp : SectionPointers) (name : String) (type : AssetType)
    (width height numLayers layersPointer : Nat) (aw : BinaryWriter) (sw : BinaryStringWriter) :
    Except String (BinaryWriter × BinaryStringWriter) := do
  let (ofs, sw) ← sw.write_string name
  let namePointer := sp.strings + ofs
  match arch with
  | Architecture.X86 => do
    let aw ← aw.write_u16 (ASSET_SIZE arch)
    let aw ← aw.write_u16 type.value
    let aw ← aw.write_pointer arch namePointer
    let aw ← aw.write_u16 width
    let aw ← aw.write_u16 height
    let aw ← aw.write_count arch numLayers
    let aw ← aw.write_pointer arch layersPointer
    .ok (aw, sw)
  | Architecture.X64 => do
    let aw ← aw.write_pointer arch namePointer
    let aw ← aw.write_u16 (ASSET_SIZE arch)
    let aw ← aw.write_u16 type.value
    let aw ← aw.write_u16 width
    let aw ← aw.write_u16 height
    let aw ← aw.write_pointer arch layersPointer
    let aw ← aw.write_count arch numLayers
    .ok (aw, sw)

/-- Python access to an optional field where the source would call
to_bytes on None (an AttributeError) if the field were absent. -/
def pyReqNat : Option Nat → Except String Nat
  | some v => .ok v
  | none => .error "AttributeError: NoneType object has no attribute to_bytes"

/-- bin.py BinaryEncoder._encode_timeline: reads layer.has_timeline first
(always an AttributeError, see Layer.getattrHasTimeline), then would write
the 12-byte record and return its absolute pointer. -/
def encodeTimeline (arch : Architecture) (sp : SectionPointers) (layer : Layer)
    (kw : BinaryWriter) : Except String (Nat × BinaryWriter) := do
  let hasTimeline ← layer.getattrHasTimeline
  if ¬hasTimeline then
    .ok (0, kw)
  else do
    let pointer := sp.keyframes + kw.tell
    let kw ← kw.write_u16 (LAYER_TIMELINE_SIZE arch)
    let kw ← kw.write_u16 (← pyReqNat layer.timeline_start)
    let kw ← kw.write_u16 (← pyReqNat layer.timeline_unknown1)
    let kw ← kw.write_u16 (← pyReqNat layer.timeline_duration)
    let kw ← kw.write_u32 (← pyReqNat layer.timeline_unknown2)
    .ok (pointer, kw)

/-- The item loop of bin.py BinaryEncoder._encode_keyframes: per item write
the record size, the frame, then the variant payload. -/
def encodeKeyframesItems {α : Type} (arch : Architecture) (size : Architecture → Nat)
    (frame : α → Nat) (sp : SectionPointers)
    (enc : α → SectionPointers → BinaryWriter → BinaryStringWriter →
      Except String (BinaryWriter × BinaryStringWriter)) :
    List α → BinaryWriter → BinaryStringWriter →
      Except String (BinaryWriter × BinaryStringWriter)
  | [], kw, sw => .ok (kw, sw)
  | k :: ks, kw, sw => do
    let kw ← kw.write_u16 (size arch)
    let kw ← kw.write_u16 (frame k)
    let (kw, sw) ← enc k sp kw sw
    encodeKeyframesItems arch size frame sp enc ks kw sw

/-- bin.py BinaryEncoder._encode_keyframes: an absent track is the null
pointer; otherwise take the absolute pointer, write every record, then the
sentinel record with frame 0xffff and a zero payload. -/
def encodeKeyframes {α : Type} (arch : Architecture) (keyframes : Option (List α))
    (size : Architecture → Nat) (frame : α → Nat) (sp : SectionPointers)
    (kw : BinaryWriter) (sw : BinaryStringWriter)
    (enc : α → SectionPointers → BinaryWriter → BinaryStringWriter →
      Except String (BinaryWriter × BinaryStringWriter)) :
    Except String (Nat × BinaryWriter × BinaryStringWriter) :=
  match keyframes with
  | none => .ok (0, kw, sw)
  | some ks => do
    let pointer := sp.keyframes + kw.tell
    let (kw, sw) ← encodeKeyframesItems arch size frame sp enc ks kw sw
    let kw ← kw.write_u16 (size arch)
    let kw ← kw.write_u16 0xffff
    let kw := kw.write_terminator (size arch - 4)
    .ok (pointer, kw, sw)

/-- bin.py BinaryEncoder._encode_position_keyframe. -/
def encodePositionKeyframe (k : PositionKeyframe) (_ : SectionPointers) (kw : BinaryWriter)
    (sw : BinaryStringWriter) : Except String (BinaryWriter × BinaryStringWriter) := do
  let kw ← kw.write_f32 k.x
  let kw ← kw.write_f32 k.y
  let kw ← kw.write_f32 k.z
  .ok (kw, sw)

/-- bin.py BinaryEncoder._encode_anchor_point_keyframe: values times 100 on
the wire. -/
def encodeAnchorPointKeyframe (k : AnchorPointKeyframe) (_ : SectionPointers) (kw : BinaryWriter)
    (sw : BinaryStringWriter) : Except String (BinaryWriter × BinaryStringWriter) := do
  let kw ← kw.write_f32 (k.x * 100)
  let kw ← kw.write_f32 (k.y * 100)
  let kw ← kw.write_f32 (k.z * 100)
  .ok (kw, sw)

/-- The range check of Python int.to_bytes(1, little) on a possibly
negative int (the colour components are ints in the model): OverflowError
outside 0..255. -/
def pyU8 (v : ℤ) : Except String Nat :=
  if 0 ≤ v ∧ v < 256 then .ok v.toNat else .error "OverflowError: int does not fit in one byte"

/-- bin.py BinaryEncoder._encode_colour_keyframe: always the four u8
components (the size-8 form). -/
def encodeColourKeyframe (k : ColourKeyframe) (_ : SectionPointers) (kw : BinaryWriter)
    (sw : BinaryStringWriter) : Except String (BinaryWriter × BinaryStringWriter) := do
  let kw ← kw.write_u8 (← pyU8 k.r)
  let kw ← kw.write_u8 (← pyU8 k.g)
  let kw ← kw.write_u8 (← pyU8 k.b)
  let kw ← kw.write_u8 (← pyU8 k.a)
  .ok (kw, sw)

/-- bin.py BinaryEncoder._encode_scale_keyframe: values times 100 on the
wire. -/
def encodeScaleKeyframe (k : ScaleKeyframe) (_ : SectionPointers) (kw : BinaryWriter)
    (sw : BinaryStringWriter) : Except String (BinaryWriter × BinaryStringWriter) := do
  let kw ← kw.write_f32 (k.x * 100)
  let kw ← kw.write_f32 (k.y * 100)
  .ok (kw, sw)

/-- bin.py BinaryEncoder._encode_alpha_keyframe: value times 100 on the
wire. -/
def encodeAlphaKeyframe (k : AlphaKeyframe) (_ : SectionPointers) (kw : BinaryWriter)
    (sw : BinaryStringWriter) : Except String (BinaryWriter × BinaryStringWriter) := do
  let kw ← kw.write_f32 (k.value * 100)
  .ok (kw, sw)

/-- bin.py BinaryEncoder._encode_rotation_keyframe. -/
def encodeRotationKeyframe (k : RotationKeyframe) (_ : SectionPointers) (kw : BinaryWriter)
    (sw : BinaryStringWriter) : Except String (BinaryWriter × BinaryStringWriter) := do
  let kw ← kw.write_f32 k.degrees
  .ok (kw, sw)

/-- bin.py BinaryEncoder._encode_size_keyframe. -/
def encodeSizeKeyframe (k : SizeKeyframe) (_ : SectionPointers) (kw : BinaryWriter)
    (sw : BinaryStringWriter) : Except String (BinaryWriter × BinaryStringWriter) := do
  let kw ← kw.write_u16 k.width
  let kw ← kw.write_u16 k.height
  .ok (kw, sw)

/-- bin.py BinaryEncoder._encode_marker_keyframe: the unknown u32 and a
dedup-written name pointer (the writer carries the architecture in the
source; here it is passed explicitly). -/
def encodeMarkerKeyframe (arch : Architecture) (k : Marker) (sp : SectionPointers)
    (kw : BinaryWriter) (sw : BinaryStringWriter) :
    Except String (BinaryWriter × BinaryStringWriter) := do
  let kw ← kw.write_u32 k.unknown
  let (ofs, sw) ← sw.write_string k.name
  let kw ← kw.write_pointer arch (sp.strings + ofs)
  .ok (kw, sw)

/-- bin.py BinaryEncoder._encode_layer. -/
def encodeLayer (arch : Architecture) (sp : SectionPointers) (layer : Layer)
    (lw kw : BinaryWriter) (sw : BinaryStringWriter) :
    Except String (BinaryWriter × BinaryWriter × BinaryStringWriter) := do
  let type := layerTypeCode layer.type
  let blendMode := blendModeCode layer.blend_mode
  let lw ← lw.write_u16 (LAYER_SIZE arch)
  let lw ← lw.write_u8 (type * 16 + blendMode)
  let lw ← lw.write_u8 0
  let lw ← match arch with
    | Architecture.X64 => lw.write_u32 0
    | Architecture.X86 => .ok lw
  let (ofs, sw) ← sw.write_string layer.name
  let lw ← lw.write_pointer arch (sp.strings + ofs)
  let (p, kw) ← encodeTimeline arch sp layer kw
  let lw ← lw.write_pointer arch p
  let (p, kw, sw) ← encodeKeyframes arch layer.position_keyframes POSITION_KEYFRAME_SIZE
    PositionKeyframe.frame sp kw sw encodePositionKeyframe
  let lw ← lw.write_pointer arch p
  let (p, kw, sw) ← encodeKeyframes arch layer.anchor_point_keyframes ANCHOR_POINT_KEYFRAME_SIZE
    AnchorPointKeyframe.frame sp kw sw encodeAnchorPointKeyframe
  let lw ← lw.write_pointer arch p
  let (p, kw, sw) ← encodeKeyframes arch layer.colour_keyframes COLOUR_KEYFRAME_SIZE
    ColourKeyframe.frame sp kw sw encodeColourKeyframe
  let lw ← lw.write_pointer arch p
  let (p, kw, sw) ← encodeKeyframes arch layer.scale_keyframes SCALE_KEYFRAME_SIZE
    ScaleKeyframe.frame sp kw sw encodeScaleKeyframe
  let lw ← lw.write_pointer arch p
  let (p, kw, sw) ← encodeKeyframes arch layer.alpha_keyframes ALPHA_KEYFRAME_SIZE
    AlphaKeyframe.frame sp kw sw encodeAlphaKeyframe
  let lw ← lw.write_pointer arch p
  let lw ← lw.write_pointer arch 0
  let (p, kw, sw) ← encodeKeyframes arch layer.rotation_x_keyframes ROTATION_KEYFRAME_SIZE
    RotationKeyframe.frame sp kw sw encodeRotationKeyframe
  let lw ← lw.write_pointer arch p
  let (p, kw, sw) ← encodeKeyframes arch layer.rotation_y_keyframes ROTATION_KEYFRAME_SIZE
    RotationKeyframe.frame sp kw sw encodeRotationKeyframe
  let lw ← lw.write_pointer arch p
  let (p, kw, sw) ← encodeKeyframes arch layer.rotation_z_keyframes ROTATION_KEYFRAME_SIZE
    RotationKeyframe.frame sp kw sw encodeRotationKeyframe
  let lw ← lw.write_pointer arch p
  let (p, kw, sw) ← encodeKeyframes arch layer.size_keyframes SIZE_KEYFRAME_SIZE
    SizeKeyframe.frame sp kw sw encodeSizeKeyframe
  let lw ← lw.write_pointer arch p
  let (p, kw, sw) ← encodeKeyframes arch layer.markers MARKER_KEYFRAME_SIZE
    Marker.frame sp kw sw (encodeMarkerKeyframe arch)
  let lw ← lw.write_pointer arch p
  .ok (lw, kw, sw)

/-- The four section writers threaded through phase 2. -/
structure EncWriters where
  aw : BinaryWriter
  lw : BinaryWriter
  kw : BinaryWriter
  sw : BinaryStringWriter
deriving DecidableEq, Repr

/-- bin.py BinaryEncoder._encode_texture. -/
def encodeTexture (arch : Architecture) (sp : SectionPointers) (st : EncWriters) (t : Texture) :
    Except String EncWriters := do
  let (aw, sw) ← encodeAsset arch sp t.name AssetType.TEXTURE t.width t.height 0 0 st.aw st.sw
  .ok { st with aw := aw, sw := sw }

/-- The layer loop of bin.py BinaryEncoder._encode_composition. -/
def encodeLayers (arch : Architecture) (sp : SectionPointers) (st : EncWriters) :
    List Layer → Except String EncWriters
  | [] => .ok st
  | l :: ls => do
    let (lw, kw, sw) ← encodeLayer arch sp l st.lw st.kw st.sw
    encodeLayers arch sp { st with lw := lw, kw := kw, sw := sw } ls

/-- bin.py BinaryEncoder._encode_composition: the asset record carries the
absolute pointer to the layers about to be written, then the layers are
emitted. -/
def encodeComposition (arch : Architecture) (sp : SectionPointers) (st : EncWriters)
    (c : Composition) : Except String EncWriters := do
  let layersPointer := sp.layers + st.lw.tell
  let (aw, sw) ← encodeAsset arch sp c.name AssetType.COMPOSITION c.width c.height
    c.layers.length layersPointer st.aw st.sw
  encodeLayers arch sp { st with aw := aw, sw := sw } c.layers

/-- The texture loop of bin.py BinaryEncoder.encode. -/
def encodeTextures (arch : Architecture) (sp : SectionPointers) (st : EncWriters) :
    List Texture → Except String EncWriters
  | [] => .ok st
  | t :: ts => do
    let st ← encodeTexture arch sp st t
    encodeTextures arch sp st ts

/-- The composition loop of bin.py BinaryEncoder.encode. -/
def encodeCompositions (arch : Architecture) (sp : SectionPointers) (st : EncWriters) :
    List Composition → Except String EncWriters
  | [] => .ok st
  | c :: cs => do
    let st ← encodeComposition arch sp st c
    encodeCompositions arch sp st cs

/-- The result of phase 2 before the size self-check. -/
structure Sections where
  aw : BinaryWriter
  lw : BinaryWriter
  kw : BinaryWriter
  sw : BinaryStringWriter
  sp : SectionPointers
deriving DecidableEq, Repr

/-- bin.py BinaryEncoder.encode up to, and excluding, the size self-check:
phase 1, then the texture and composition loops, then the assets terminator,
the layers-section base pointer and its padding to 16 bytes. -/
def encodeSections (arch : Architecture) (project : Project) : Except String Sections := do
  let sp ← getSectionPointers arch project
  let st : EncWriters := ⟨⟨[]⟩, ⟨[]⟩, ⟨[]⟩, ⟨[], []⟩⟩
  let st ← encodeTextures arch sp st project.textures
  let st ← encodeCompositions arch sp st project.compositions
  let aw := st.aw.write_terminator (ASSET_TERMINATOR_SIZE arch)
  let aw ← aw.write_pointer arch sp.layers
  let aw := aw.write_terminator (LAYERS_SECTION_POINTER_SIZE arch - POINTER_SIZE arch)
  .ok ⟨aw, st.lw, st.kw, st.sw, sp⟩

/-- bin.py BinaryEncoder.encode: phase 1 and phase 2, the four size
self-checks, then the concatenation of the four buffers in section order as
written to the output file. -/
def binEncode (arch : Architecture) (project : Project) : Except String (List Nat) := do
  let s ← encodeSections arch project
  if s.aw.tell ≠ s.sp.assets_size then
    .error ("expected to write " ++ toString s.sp.assets_size ++ " assets section bytes, but wrote " ++ toString s.aw.tell)
  else if s.lw.tell ≠ s.sp.layers_size then
    .error ("expected to write " ++ toString s.sp.layers_size ++ " layers section bytes, but wrote " ++ toString s.lw.tell)
  else if s.kw.tell ≠ s.sp.keyframes_size then
    .error ("expected to write " ++ toString s.sp.keyframes_size ++ " keyframes section bytes, but wrote " ++ toString s.kw.tell)
  else if s.sw.tell ≠ s.sp.strings_size then
    .error ("expected to write " ++ toString s.sp.strings_size ++ " strings section bytes, but wrote " ++ toString s.sw.tell)
  else
    .ok (s.aw.buffer ++ s.lw.buffer ++ s.kw.buffer ++ s.sw.buffer)

/-! ## JSON values and Python primitives over them (src/aep/json.py) -/

/-- The JSON values Python json.load and json.dump exchange: null, int,
float, string, array, object (insertion-ordered). -/
inductive Json
  | null
  | jint (n : ℤ)
  | jfloat (q : ℚ)
  | jstr (s : String)
  | jarr (xs : List Json)
  | jobj (fields : List (String × Json))

/-- Lookup of a key in an object field list (first match). -/
def jsonLookup : List (String × Json) → String → Option Json
  | [], _ => none
  | (k, v) :: rest, key => if k = key then some v else jsonLookup rest key

/-- Python subscript input[key]: a KeyError when the key is absent, a
TypeError when the value is not a dict (this is what a list or a string
raises when indexed with a string). -/
def pyKey (j : Json) (key : String) : Except String Json :=
  match j with
  | Json.jobj fields =>
    match jsonLookup fields key with
    | some v => .ok v
    | none => .error ("KeyError: " ++ key)
  | _ => .error "TypeError: indices must be integers, not str"

/-- Python dict.get(key): None when the key is absent.  json.load gives a
null field the same None value, so absence and null coincide here. -/
def pyGet (j : Json) (key : String) : Except String Json :=
  match j with
  | Json.jobj fields => .ok ((jsonLookup fields key).getD Json.null)
  | _ => .error "AttributeError: object has no attribute get"

/-- Python int(x) on a JSON value: identity on int, truncation toward zero
on float, digit parsing on str, TypeError on the rest. -/
def pyInt : Json → Except String ℤ
  | Json.jint n => .ok n
  | Json.jfloat q => .ok (pyTrunc q)
  | Json.jstr s =>
    match s.toInt? with
    | some n => .ok n
    | none => .error "ValueError: invalid literal for int"
  | _ => .error "TypeError: int argument must be a number or string"

/-- Python float(x) on a JSON value. -/
def pyFloat : Json → Except String ℚ
  | Json.jint n => .ok (n : ℚ)
  | Json.jfloat q => .ok q
  | Json.jstr s =>
    match s.toInt? with
    | some n => .ok (n : ℚ)
    | none => .error "ValueError: could not convert string to float"
  | _ => .error "TypeError: float argument must be a number or string"

/-- Python str values out of a JSON field (names): a TypeError stands for
any later failure a non-string would cause. -/
def pyStr : Json → Except String String
  | Json.jstr s => .ok s
  | _ => .error "TypeError: expected str"

/-- Python iteration (for x in v): lists yield elements, dicts their keys,
strings their characters; numbers and None are not iterable. -/
def pyIter : Json → Except String (List Json)
  | Json.jarr xs => .ok xs
  | Json.jobj fields => .ok (fields.map (fun p => Json.jstr p.1))
  | Json.jstr s => .ok (s.data.map (fun c => Json.jstr (String.mk [c])))
  | _ => .error "TypeError: object is not iterable"

/-! ## JSON decoder (json.py JsonDecoder) -/

/-- json.py JsonDecoder._assert_un: skip None, else require the unsigned
range. -/
def assertUn (value : Option ℤ) (name : String) (numBits : Nat) : Except String Unit :=
  match value with
  | none => .ok ()
  | some v =>
    if v < 0 ∨ (2 : ℤ) ^ numBits ≤ v then
      .error (name ++ " (" ++ toString v ++ ") is outside of bounds")
    else
      .ok ()

/-- json.py JsonDecoder._assert_u16. -/
def assertU16 (value : Option ℤ) (name : String) : Except String Unit := assertUn value name 16

/-- json.py JsonDecoder._assert_u32. -/
def assertU32 (value : Option ℤ) (name : String) : Except String Unit := assertUn value name 32

/-- json.py LAYER_TYPES (string keyed). -/
def jsonLayerType (s : String) : Except String LayerType :=
  if s = "composition" then .ok LayerType.COMPOSITION
  else if s = "colour" then .ok LayerType.COLOUR
  else if s = "texture" then .ok LayerType.TEXTURE
  else .error ("KeyError: " ++ s)

/-- json.py BLEND_MODES (string keyed). -/
def jsonBlendMode (s : String) : Except String BlendMode :=
  if s = "normal" then .ok BlendMode.NORMAL
  else if s = "additive" then .ok BlendMode.ADDITIVE
  else if s = "unknown" then .ok BlendMode.UNKNOWN
  else .error ("KeyError: " ++ s)

/-- Value of one hexadecimal digit, as Python bytes.fromhex accepts it. -/
def hexDigit (c : Char) : Option Nat :=
  if '0' ≤ c ∧ c ≤ '9' then some (c.toNat - '0'.toNat)
  else if 'a' ≤ c ∧ c ≤ 'f' then some (c.toNat - 'a'.toNat + 10)
  else if 'A' ≤ c ∧ c ≤ 'F' then some (c.toNat - 'A'.toNat + 10)
  else none

/-- Big-endian value of a hex string, as int.from_bytes(bytes.fromhex(s),
big); an invalid digit is a ValueError. -/
def hexValue : List Char → Nat → Except String Nat
  | [], acc => .ok acc
  | c :: cs, acc =>
    match hexDigit c with
    | some d => hexValue cs (acc * 16 + d)
    | none => .error "ValueError: non-hexadecimal number found in fromhex"

/-- json.py JsonDecoder._decode_position_keyframe. -/
def jsonDecodePositionKeyframe (frame : ℤ) (input : Json) : Except String PositionKeyframe := do
  let x ← pyFloat (← pyKey input "x")
  let y ← pyFloat (← pyKey input "y")
  let z ← pyFloat (← pyKey input "z")
  .ok ⟨frame.toNat, x, y, z⟩

/-- json.py JsonDecoder._decode_anchor_point_keyframe. -/
def jsonDecodeAnchorPointKeyframe (frame : ℤ) (input : Json) : Except String AnchorPointKeyframe := do
  let x ← pyFloat (← pyKey input "x")
  let y ← pyFloat (← pyKey input "y")
  let z ← pyFloat (← pyKey input "z")
  .ok ⟨frame.toNat, x, y, z⟩

/-- json.py JsonDecoder._decode_colour_keyframe: a lowercase-hex rgba
string of the shape hash-RRGGBBAA. -/
def jsonDecodeColourKeyframe (frame : ℤ) (input : Json) : Except String ColourKeyframe := do
  let rgbaStr ← pyStr (← pyKey input "rgba")
  match rgbaStr.data with
  | c :: hex =>
    if c ≠ '#' then .error "ValueError: invalid rgba colour"
    else if hex.length ≠ 8 then .error "ValueError: invalid rgba colour"
    else do
      let rgba ← hexValue hex 0
      .ok ⟨frame.toNat, (rgba / 2 ^ 24 % 256 : Nat), (rgba / 2 ^ 16 % 256 : Nat),
           (rgba / 2 ^ 8 % 256 : Nat), (rgba % 256 : Nat)⟩
  | [] => .error "ValueError: invalid rgba colour"

/-- json.py JsonDecoder._decode_scale_keyframe. -/
def jsonDecodeScaleKeyframe (frame : ℤ) (input : Json) : Except String ScaleKeyframe := do
  let x ← pyFloat (← pyKey input "x")
  let y ← pyFloat (← pyKey input "y")
  .ok ⟨frame.toNat, x, y⟩

/-- json.py JsonDecoder._decode_alpha_keyframe. -/
def jsonDecodeAlphaKeyframe (frame : ℤ) (input : Json) : Except String AlphaKeyframe := do
  let value ← pyFloat (← pyKey input "value")
  .ok ⟨frame.toNat, value⟩

/-- json.py JsonDecoder._decode_rotation_keyframe: reads the field named
degrees (the encoder writes the field named rotation). -/
def jsonDecodeRotationKeyframe (frame : ℤ) (input : Json) : Except String RotationKeyframe := do
  let degrees ← pyFloat (← pyKey input "degrees")
  .ok ⟨frame.toNat, degrees⟩

/-- json.py JsonDecoder._decode_size_keyframe. -/
def jsonDecodeSizeKeyframe (frame : ℤ) (input : Json) : Except String SizeKeyframe := do
  let width ← pyInt (← pyKey input "width")
  let height ← pyInt (← pyKey input "height")
  assertU16 (some width) "size keyframe width"
  assertU16 (some height) "size keyframe height"
  .ok ⟨frame.toNat, width.toNat, height.toNat⟩

/-- json.py JsonDecoder._decode_marker_keyframe. -/
def jsonDecodeMarkerKeyframe (frame : ℤ) (input : Json) : Except String Marker := do
  let unknown ← pyInt (← pyKey input "unknown")
  let name ← pyStr (← pyKey input "name")
  assertU32 (some unknown) "marker unknown"
  .ok ⟨frame.toNat, unknown.toNat, name⟩

/-- The item loop of json.py JsonDecoder._decode_keyframes: per item read
and bounds-check the frame, then dispatch. -/
def jsonDecodeKeyframesLoop {α : Type} (dec : ℤ → Json → Except String α) :
    List Json → List α → Except String (List α)
  | [], acc => .ok acc
  | k :: ks, acc => do
    let frame ← pyInt (← pyKey k "frame")
    assertU16 (some frame) "keyframe frame"
    let kf ← dec frame k
    jsonDecodeKeyframesLoop dec ks (acc ++ [kf])

/-- json.py JsonDecoder._decode_keyframes: None (an absent or null field)
stays None; an empty decoded list is normalized to None. -/
def jsonDecodeKeyframes {α : Type} (input : Json) (dec : ℤ → Json → Except String α) :
    Except String (Option (List α)) :=
  match input with
  | Json.null => .ok none
  | _ => do
    let items ← pyIter input
    let ks ← jsonDecodeKeyframesLoop dec items []
    if ks.isEmpty then .ok none else .ok (some ks)

/-- Reading one timeline field in json.py JsonDecoder._decode_layer: the
key is required; a null value is None, anything else goes through int. -/
def jsonTimelineField (input : Json) (key : String) : Except String (Option ℤ) := do
  let v ← pyKey input key
  match v with
  | Json.null => .ok none
  | v => do
    let n ← pyInt v
    .ok (some n)

/-- json.py JsonDecoder._decode_layer. -/
def jsonDecodeLayer (input : Json) : Except String Layer := do
  let name ← pyStr (← pyKey input "name")
  let type ← jsonLayerType (← pyStr (← pyKey input "type"))
  let blendMode ← jsonBlendMode (← pyStr (← pyKey input "blend_mode"))
  let timelineStart ← jsonTimelineField input "timeline_start"
  let timelineUnknown1 ← jsonTimelineField input "timeline_unknown1"
  let timelineDuration ← jsonTimelineField input "timeline_duration"
  let timelineUnknown2 ← jsonTimelineField input "timeline_unknown2"
  assertU16 timelineStart ("layer " ++ name ++ " timeline_start")
  assertU16 timelineUnknown1 ("layer " ++ name ++ " timeline_unknown1")
  assertU16 timelineDuration ("layer " ++ name ++ " timeline_duration")
  assertU32 timelineUnknown2 ("layer " ++ name ++ " timeline_unknown2")
  let positionKeyframes ← jsonDecodeKeyframes (← pyGet input "position_keyframes") jsonDecodePositionKeyframe
  let anchorPointKeyframes ← jsonDecodeKeyframes (← pyGet input "anchor_point_keyframes") jsonDecodeAnchorPointKeyframe
  let colourKeyframes ← jsonDecodeKeyframes (← pyGet input "colour_keyframes") jsonDecodeColourKeyframe
  let scaleKeyframes ← jsonDecodeKeyframes (← pyGet input "scale_keyframes") jsonDecodeScaleKeyframe
  let alphaKeyframes ← jsonDecodeKeyframes (← pyGet input "alpha_keyframes") jsonDecodeAlphaKeyframe
  let rotationXKeyframes ← jsonDecodeKeyframes (← pyGet input "rotation_x_keyframes") jsonDecodeRotationKeyframe
  let rotationYKeyframes ← jsonDecodeKeyframes (← pyGet input "rotation_y_keyframes") jsonDecodeRotationKeyframe
  let rotationZKeyframes ← jsonDecodeKeyframes (← pyGet input "rotation_z_keyframes") jsonDecodeRotationKeyframe
  let sizeKeyframes ← jsonDecodeKeyframes (← pyGet input "size_keyframes") jsonDecodeSizeKeyframe
  let markers ← jsonDecodeKeyframes (← pyGet input "markers") jsonDecodeMarkerKeyframe
  .ok ⟨name, type, blendMode,
       timelineStart.map Int.toNat, timelineUnknown1.map Int.toNat,
       timelineDuration.map Int.toNat, timelineUnknown2.map Int.toNat,
       positionKeyframes, anchorPointKeyframes, colourKeyframes, scaleKeyframes,
       alphaKeyframes, rotationXKeyframes, rotationYKeyframes, rotationZKeyframes,
       sizeKeyframes, markers⟩

/-- The key loop of json.py JsonDecoder._decode_textures. -/
def jsonDecodeTexturesLoop : List (String × Json) → List Texture → Except String (List Texture)
  | [], acc => .ok acc
  | (name, v) :: rest, acc => do
    let width ← pyInt (← pyKey v "width")
    let height ← pyInt (← pyKey v "height")
    assertU16 (some width) ("texture " ++ name ++ " width")
    assertU16 (some height) ("texture " ++ name ++ " height")
    jsonDecodeTexturesLoop rest (acc ++ [⟨name, width.toNat, height.toNat⟩])

/-- json.py JsonDecoder._decode_textures: iterate the object keys. -/
def jsonDecodeTextures (input : Json) : Except String (List Texture) :=
  match input with
  | Json.jobj fields => jsonDecodeTexturesLoop fields []
  | _ => .error "AttributeError: object has no attribute keys"

/-- The layer loop of json.py JsonDecoder._decode_compositions. -/
def jsonDecodeLayersLoop : List Json → List Layer → Except String (List Layer)
  | [], acc => .ok acc
  | l :: ls, acc => do
    let layer ← jsonDecodeLayer l
    jsonDecodeLayersLoop ls (acc ++ [layer])

/-- The key loop of json.py JsonDecoder._decode_compositions. -/
def jsonDecodeCompositionsLoop : List (String × Json) → List Composition →
    Except String (List Composition)
  | [], acc => .ok acc
  | (name, v) :: rest, acc => do
    let width ← pyInt (← pyKey v "width")
    let height ← pyInt (← pyKey v "height")
    assertU16 (some width) ("composition " ++ name ++ " width")
    assertU16 (some height) ("composition " ++ name ++ " height")
    let layersJson ← pyIter (← pyKey v "layers")
    let layers ← jsonDecodeLayersLoop layersJson []
    jsonDecodeCompositionsLoop rest (acc ++ [⟨name, width.toNat, height.toNat, layers⟩])

/-- json.py JsonDecoder._decode_compositions. -/
def jsonDecodeCompositions (input : Json) : Except String (List Composition) :=
  match input with
  | Json.jobj fields => jsonDecodeCompositionsLoop fields []
  | _ => .error "AttributeError: object has no attribute keys"

/-- json.py JsonDecoder.decode over an already-parsed JSON value: the two
top-level objects, then the Project constructor validation. -/
def jsonDecode (input : Json) : Except String Project := do
  let textures ← jsonDecodeTextures (← pyKey input "textures")
  let compositions ← jsonDecodeCompositions (← pyKey input "compositions")
  Project.mk_checked textures compositions

/-! ## JSON encoder (json.py JsonEncoder) -/

/-- Reverse lookup in json.py LAYER_TYPES as the encoder performs it. -/
def layerTypeName : LayerType → String
  | LayerType.COMPOSITION => "composition"
  | LayerType.COLOUR => "colour"
  | LayerType.TEXTURE => "texture"

/-- Reverse lookup in json.py BLEND_MODES as the encoder performs it. -/
def blendModeName : BlendMode → String
  | BlendMode.NORMAL => "normal"
  | BlendMode.ADDITIVE => "additive"
  | BlendMode.UNKNOWN => "unknown"

/-- An optional integer as a JSON field value (None becomes null). -/
def jsonOfOptNat : Option Nat → Json
  | none => Json.null
  | some v => Json.jint v

/-- json.py JsonEncoder._encode_keyframes: the frame together with the
variant fields, per keyframe. -/
def jsonEncodeKeyframes {α : Type} (frame : α → Nat) (enc : α → List (String × Json))
    (ks : List α) : Json :=
  Json.jarr (ks.map fun k => Json.jobj (("frame", Json.jint (frame k)) :: enc k))

/-- The digits of a natural number in lowercase hex. -/
def hexChars : Nat → List Char → List Char
  | 0, acc => acc
  | n + 1, acc =>
    let v := n + 1
    hexChars (v / 16) (Char.ofNat (if v % 16 < 10 then '0'.toNat + v % 16 else 'a'.toNat + v % 16 - 10) :: acc)

/-- Python format 08x: lowercase hex padded to eight digits. -/
def hex8 (v : Nat) : String :=
  let ds := hexChars v []
  String.mk (List.replicate (8 - ds.length) '0' ++ ds)

/-- json.py JsonEncoder._encode_position_keyframe. -/
def jsonEncodePositionKeyframe (k : PositionKeyframe) : List (String × Json) :=
  [("x", Json.jfloat k.x), ("y", Json.jfloat k.y), ("z", Json.jfloat k.z)]

/-- json.py JsonEncoder._encode_anchor_point_keyframe. -/
def jsonEncodeAnchorPointKeyframe (k : AnchorPointKeyframe) : List (String × Json) :=
  [("x", Json.jfloat k.x), ("y", Json.jfloat k.y), ("z", Json.jfloat k.z)]

/-- json.py JsonEncoder._encode_colour_keyframe: the packed rgba hex
string. -/
def jsonEncodeColourKeyframe (k : ColourKeyframe) : List (String × Json) :=
  [("rgba", Json.jstr ("#" ++ hex8 (k.r.toNat * 2 ^ 24 + k.g.toNat * 2 ^ 16 + k.b.toNat * 2 ^ 8 + k.a.toNat)))]

/-- json.py JsonEncoder._encode_scale_keyframe. -/
def jsonEncodeScaleKeyframe (k : ScaleKeyframe) : List (String × Json) :=
  [("x", Json.jfloat k.x), ("y", Json.jfloat k.y)]

/-- json.py JsonEncoder._encode_alpha_keyframe. -/
def jsonEncodeAlphaKeyframe (k : AlphaKeyframe) : List (String × Json) :=
  [("value", Json.jfloat k.value)]

/-- json.py JsonEncoder._encode_rotation_keyframe: writes the field named
rotation (the decoder reads the field named degrees). -/
def jsonEncodeRotationKeyframe (k : RotationKeyframe) : List (String × Json) :=
  [("rotation", Json.jfloat k.degrees)]

/-- json.py JsonEncoder._encode_size_keyframe. -/
def jsonEncodeSizeKeyframe (k : SizeKeyframe) : List (String × Json) :=
  [("width", Json.jint k.width), ("height", Json.jint k.height)]

/-- json.py JsonEncoder._encode_marker_keyframe. -/
def jsonEncodeMarkerKeyframe (k : Marker) : List (String × Json) :=
  [("unknown", Json.jint k.unknown), ("name", Json.jstr k.name)]

/-- One conditional track field of json.py JsonEncoder._encode_layer.  The
source lines end in a trailing comma, so the assigned value is a one-tuple;
json.dump serializes that tuple as a one-element array wrapping the
keyframe list. -/
def jsonTrackField {α : Type} (key : String) (frame : α → Nat) (enc : α → List (String × Json)) :
    Option (List α) → List (String × Json)
  | none => []
  | some ks => [(key, Json.jarr [jsonEncodeKeyframes frame enc ks])]

/-- json.py JsonEncoder._encode_layer. -/
def jsonEncodeLayer (l : Layer) : Json :=
  Json.jobj
    ([("name", Json.jstr l.name),
      ("type", Json.jstr (layerTypeName l.type)),
      ("blend_mode", Json.jstr (blendModeName l.blend_mode)),
      ("timeline_start", jsonOfOptNat l.timeline_start),
      ("timeline_unknown1", jsonOfOptNat l.timeline_unknown1),
      ("timeline_duration", jsonOfOptNat l.timeline_duration),
      ("timeline_unknown2", jsonOfOptNat l.timeline_unknown2)]
     ++ jsonTrackField "position_keyframes" PositionKeyframe.frame jsonEncodePositionKeyframe l.position_keyframes
     ++ jsonTrackField "anchor_point_keyframes" AnchorPointKeyframe.frame jsonEncodeAnchorPointKeyframe l.anchor_point_keyframes
     ++ jsonTrackField "colour_keyframes" ColourKeyframe.frame jsonEncodeColourKeyframe l.colour_keyframes
     ++ jsonTrackField "scale_keyframes" ScaleKeyframe.frame jsonEncodeScaleKeyframe l.scale_keyframes
     ++ jsonTrackField "alpha_keyframes" AlphaKeyframe.frame jsonEncodeAlphaKeyframe l.alpha_keyframes
     ++ jsonTrackField "rotation_x_keyframes" RotationKeyframe.frame jsonEncodeRotationKeyframe l.rotation_x_keyframes
     ++ jsonTrackField "rotation_y_keyframes" RotationKeyframe.frame jsonEncodeRotationKeyframe l.rotation_y_keyframes
     ++ jsonTrackField "rotation_z_keyframes" RotationKeyframe.frame jsonEncodeRotationKeyframe l.rotation_z_keyframes
     ++ jsonTrackField "size_keyframes" SizeKeyframe.frame jsonEncodeSizeKeyframe l.size_keyframes
     ++ jsonTrackField "markers" Marker.frame jsonEncodeMarkerKeyframe l.markers)

/-- json.py JsonEncoder._encode_texture. -/
def jsonEncodeTexture (t : Texture) : Json :=
  Json.jobj [("width", Json.jint t.width), ("height", Json.jint t.height)]

/-- json.py JsonEncoder._encode_composition. -/
def jsonEncodeComposition (c : Composition) : Json :=
  Json.jobj [("width", Json.jint c.width), ("height", Json.jint c.height),
             ("layers", Json.jarr (c.layers.map jsonEncodeLayer))]

/-- Assignment into a Python dict built by comprehension: a repeated key
replaces the value at its first position. -/
def dictAssign : List (String × Json) → String → Json → List (String × Json)
  | [], k, v => [(k, v)]
  | (k0, v0) :: rest, k, v =>
    if k0 = k then (k0, v) :: rest else (k0, v0) :: dictAssign rest k v

/-- A Python dict comprehension keyed by asset name. -/
def pyDictOfPairs : List (String × Json) → List (String × Json) → List (String × Json)
  | [], acc => acc
  | (k, v) :: rest, acc => pyDictOfPairs rest (dictAssign acc k v)

/-- json.py JsonEncoder.encode: the textures and compositions objects keyed
by name. -/
def jsonEncode (project : Project) : Json :=
  Json.jobj
    [("textures", Json.jobj (pyDictOfPairs (project.textures.map fun t => (t.name, jsonEncodeTexture t)) [])),
     ("compositions", Json.jobj (pyDictOfPairs (project.compositions.map fun c => (c.name, jsonEncodeComposition c)) []))]

/-! ## Concrete fixtures used by the theorems -/

/-- The empty project: no textures, no compositions. -/
def emptyProject : Project := ⟨[], []⟩

/-- A colour layer named L with no timeline and no keyframe tracks (a
colour layer triggers no reference validation). -/
def layerL : Layer :=
  ⟨"L", LayerType.COLOUR, BlendMode.NORMAL, none, none, none, none,
   none, none, none, none, none, none, none, none, none, none⟩

/-- A project with one composition c holding the single layer L. -/
def projWithLayer : Project := ⟨[], [⟨"c", 1, 1, [layerL]⟩]⟩

/-- A project with one texture a (width 2, height 3) and no
compositions. -/
def textureProject : Project := ⟨[⟨"a", 2, 3⟩], []⟩

/-- The layer L with one rotation-x keyframe (frame 0, 1 degree). -/
def rotLayer : Layer := { layerL with rotation_x_keyframes := some [⟨0, 1⟩] }

/-- A project with one composition c holding the rotation layer. -/
def rotProject : Project := ⟨[], [⟨"c", 1, 1, [rotLayer]⟩]⟩

/-- The layer L renamed to the single non-ASCII character U+00E9. -/
def nonAsciiLayer : Layer := { layerL with name := String.mk [Char.ofNat 233] }

/-- A project with one composition c holding the non-ASCII-named layer. -/
def nonAsciiProject : Project := ⟨[], [⟨"c", 1, 1, [nonAsciiLayer]⟩]⟩

/-- A hand-laid-out x86 binary file: one composition asset c with one
colour layer L whose colour-keyframes pointer (offset 92) leads directly to
a sentinel record, every other track pointer null.  Strings c and L live at
offsets 96 and 98. -/
def sentinelTrackFile : List Nat :=
  [20, 0,
   1, 0,
   96, 0, 0, 0,
   1, 0,
   1, 0,
   1, 0, 0, 0,
   36, 0, 0, 0]
  ++ List.replicate 16 0
  ++ [56, 0,
      0x62,
      0,
      98, 0, 0, 0,
      0, 0, 0, 0,
      0, 0, 0, 0,
      0, 0, 0, 0,
      92, 0, 0, 0,
      0, 0, 0, 0,
      0, 0, 0, 0,
      0, 0, 0, 0,
      0, 0, 0, 0,
      0, 0, 0, 0,
      0, 0, 0, 0,
      0, 0, 0, 0,
      0, 0, 0, 0]
  ++ [8, 0, 0xff, 0xff]
  ++ [99, 0]
  ++ [76, 0]

/-- The wire bytes of the four f32 colour components 1.0, 0.5, 0.0, 1.0
(little-endian IEEE-754 singles). -/
def colourF32Bytes : List Nat :=
  [0x00, 0x00, 0x80, 0x3f,
   0x00, 0x00, 0x00, 0x3f,
   0x00, 0x00, 0x00, 0x00,
   0x00, 0x00, 0x80, 0x3f]

/-- A JSON project whose only layer carries timeline_unknown2 = 4095 (and
the other three timeline fields 0). -/
def unknown2Json : Json :=
  Json.jobj
    [("textures", Json.jobj []),
     ("compositions", Json.jobj
       [("c", Json.jobj
         [("width", Json.jint 1),
          ("height", Json.jint 1),
          ("layers", Json.jarr
            [Json.jobj
              [("name", Json.jstr "L"),
               ("type", Json.jstr "colour"),
               ("blend_mode", Json.jstr "normal"),
               ("timeline_start", Json.jint 0),
               ("timeline_unknown1", Json.jint 0),
               ("timeline_duration", Json.jint 0),
               ("timeline_unknown2", Json.jint 4095)]])])])]

/-- The layer L with timeline fields 0, 0, 0, 4095, as unknown2Json decodes
it. -/
def unknown2Layer : Layer :=
  { layerL with
    timeline_start := some 0
    timeline_unknown1 := some 0
    timeline_duration := some 0
    timeline_unknown2 := some 4095 }

/-! ## Proof toolkit -/

theorem except_bind_ok {α β : Type} {m : Except String α} {f : α → Except String β} {c : β} :
    (m >>= f) = .ok c ↔ ∃ b, m = .ok b ∧ f b = .ok c := by
  cases m <;> simp [Bind.bind, Except.bind]

theorem except_pure_ok {α : Type} {a c : α} :
    (pure a : Except String α) = .ok c ↔ a = c := by
  simp [pure, Except.pure]

/-- A string whose characters are all ASCII. -/
def isAsciiStr (s : String) : Bool := s.data.all (fun c => c.toNat < 128)

theorem encodeAscii_ok {s : String} (h : isAsciiStr s = true) :
    encodeAscii s = .ok (asciiBytes s) := by
  simp only [encodeAscii, isAsciiStr] at h ⊢
  rw [h]
  rfl

theorem leBytes_length (len v : Nat) : (leBytes len v).length = len := by
  induction len generalizing v with
  | zero => rfl
  | succ n ih => simp [leBytes, ih]

theorem toBytesLE_ok {len v : Nat} {bs : List Nat} (h : toBytesLE len v = .ok bs) :
    bs = leBytes len v ∧ v < 256 ^ len := by
  by_cases hv : v < 256 ^ len
  · refine ⟨?_, hv⟩
    simp [toBytesLE, hv] at h
    exact h.symm
  · simp [toBytesLE, hv] at h

theorem strEnc_length (s : String) : (strEnc s).length = s.data.length + 1 := by
  simp [strEnc, asciiBytes]

/-! ### First-occurrence dedup lemmas -/

/-- The seen accumulator after one pass of dedupFirstAux. -/
def seenAfter (seen : List String) : List String → List String
  | [] => seen
  | x :: xs => if x ∈ seen then seenAfter seen xs else seenAfter (x :: seen) xs

theorem mem_seenAfter {seen ns : List String} {n : String} :
    n ∈ seenAfter seen ns ↔ n ∈ seen ∨ n ∈ ns := by
  induction ns generalizing seen with
  | nil => simp [seenAfter]
  | cons x xs ih =>
    by_cases hx : x ∈ seen
    · simp only [seenAfter, if_pos hx, ih]
      constructor
      · rintro (h | h)
        · exact Or.inl h
        · exact Or.inr (List.mem_cons_of_mem x h)
      · rintro (h | h)
        · exact Or.inl h
        · rcases List.mem_cons.mp h with rfl | h
          · exact Or.inl hx
          · exact Or.inr h
    · simp only [seenAfter, if_neg hx, ih, List.mem_cons]
      tauto

theorem dedupFirstAux_append (seen ns ms : List String) :
    dedupFirstAux seen (ns ++ ms) = dedupFirstAux seen ns ++ dedupFirstAux (seenAfter seen ns) ms := by
  induction ns generalizing seen with
  | nil => simp [dedupFirstAux, seenAfter]
  | cons x xs ih =>
    by_cases hx : x ∈ seen
    · simp [dedupFirstAux, seenAfter, if_pos hx, ih]
    · simp [dedupFirstAux, seenAfter, if_neg hx, ih]

theorem mem_dedupFirstAux {seen ns : List String} {n : String} :
    n ∈ dedupFirstAux seen ns ↔ n ∈ ns ∧ n ∉ seen := by
  induction ns generalizing seen with
  | nil => simp [dedupFirstAux]
  | cons x xs ih =>
    by_cases hx : x ∈ seen
    · simp only [dedupFirstAux, if_pos hx, ih, List.mem_cons]
      constructor
      · rintro ⟨h, hn⟩
        exact ⟨Or.inr h, hn⟩
      · rintro ⟨h | h, hn⟩
        · subst h
          exact absurd hx hn
        · exact ⟨h, hn⟩
    · simp only [dedupFirstAux, if_neg hx, List.mem_cons, ih]
      by_cases hnx : n = x
      · subst hnx
        simp [hx]
      · simp only [hnx, false_or]

theorem mem_dedupFirst {ns : List String} {n : String} :
    n ∈ dedupFirst ns ↔ n ∈ ns := by
  simp [dedupFirst, mem_dedupFirstAux]

theorem nodup_dedupFirstAux (seen ns : List String) : (dedupFirstAux seen ns).Nodup := by
  induction ns generalizing seen with
  | nil => simp [dedupFirstAux]
  | cons x xs ih =>
    by_cases hx : x ∈ seen
    · simpa [dedupFirstAux, if_pos hx] using ih seen
    · rw [show dedupFirstAux seen (x :: xs) = x :: dedupFirstAux (x :: seen) xs from by
        simp [dedupFirstAux, hx]]
      refine List.nodup_cons.mpr ⟨?_, ih (x :: seen)⟩
      intro hmem
      exact absurd (List.mem_cons_self x seen) (mem_dedupFirstAux.mp hmem).2

theorem nodup_dedupFirst (ns : List String) : (dedupFirst ns).Nodup :=
  nodup_dedupFirstAux [] ns

theorem dedupFirst_snoc_mem {ns : List String} {n : String} (h : n ∈ ns) :
    dedupFirst (ns ++ [n]) = dedupFirst ns := by
  have hseen : n ∈ seenAfter [] ns := mem_seenAfter.mpr (Or.inr h)
  simp [dedupFirst, dedupFirstAux_append, dedupFirstAux, hseen]

theorem dedupFirst_snoc_new {ns : List String} {n : String} (h : n ∉ ns) :
    dedupFirst (ns ++ [n]) = dedupFirst ns ++ [n] := by
  have hseen : n ∉ seenAfter [] ns := by
    intro hc
    rcases mem_seenAfter.mp hc with hc | hc
    · simp at hc
    · exact h hc
  simp [dedupFirst, dedupFirstAux_append, dedupFirstAux, hseen]

theorem stringsBufferOf_snoc_mem {ns : List String} {n : String} (h : n ∈ ns) :
    stringsBufferOf (ns ++ [n]) = stringsBufferOf ns := by
  simp [stringsBufferOf, dedupFirst_snoc_mem h]

theorem stringsBufferOf_snoc_new {ns : List String} {n : String} (h : n ∉ ns) :
    stringsBufferOf (ns ++ [n]) = stringsBufferOf ns ++ strEnc n := by
  simp [stringsBufferOf, dedupFirst_snoc_new h]

theorem offsetIn_append_of_mem {d1 d2 : List String} {n : String} (h : n ∈ d1) :
    offsetIn (d1 ++ d2) n = offsetIn d1 n := by
  induction d1 with
  | nil => simp at h
  | cons x xs ih =>
    by_cases hx : x = n
    · simp [offsetIn, hx]
    · rcases List.mem_cons.mp h with rfl | h
      · exact absurd rfl hx
      · simp [offsetIn, hx, ih h]

theorem firstOffset_extend {ns ms : List String} {n : String} (h : n ∈ ns) :
    firstOffset (ns ++ ms) n = firstOffset ns n := by
  unfold firstOffset
  rw [show dedupFirst (ns ++ ms) = dedupFirst ns ++ dedupFirstAux (seenAfter [] ns) ms from
    dedupFirstAux_append [] ns ms]
  exact offsetIn_append_of_mem (mem_dedupFirst.mpr h)

theorem offsetIn_append_self {d : List String} {n : String} (h : n ∉ d) :
    offsetIn (d ++ [n]) n = ((d.map strEnc).flatten).length := by
  induction d with
  | nil => simp [offsetIn]
  | cons x xs ih =>
    have hx : x ≠ n := fun hc => h (hc ▸ List.mem_cons_self x xs)
    have hxs : n ∉ xs := fun hc => h (List.mem_cons_of_mem x hc)
    simp [offsetIn, hx, ih hxs]

theorem firstOffset_snoc_self_new {ns : List String} {n : String} (h : n ∉ ns) :
    firstOffset (ns ++ [n]) n = (stringsBufferOf ns).length := by
  unfold firstOffset stringsBufferOf
  rw [dedupFirst_snoc_new h]
  exact offsetIn_append_self (fun hc => h (mem_dedupFirst.mp hc))

/-- The dict of the dedup string writer after a given write sequence. -/
def ptrsOf (ns : List String) : List (String × Nat) :=
  (dedupFirst ns).map (fun m => (m, firstOffset ns m))

theorem assocFind_map_self {d : List String} {n : String} {f : String → Nat} (h : n ∈ d) :
    assocFind (d.map (fun m => (m, f m))) n = some (f n) := by
  induction d with
  | nil => simp at h
  | cons x xs ih =>
    by_cases hx : x = n
    · subst hx
      simp [assocFind]
    · rcases List.mem_cons.mp h with rfl | h
      · exact absurd rfl hx
      · simp [assocFind, hx, ih h]

theorem assocFind_map_none {d : List String} {n : String} {f : String → Nat} (h : n ∉ d) :
    assocFind (d.map (fun m => (m, f m))) n = none := by
  induction d with
  | nil => rfl
  | cons x xs ih =>
    have hx : x ≠ n := fun hc => h (hc ▸ List.mem_cons_self x xs)
    have hxs : n ∉ xs := fun hc => h (List.mem_cons_of_mem x hc)
    simp [assocFind, hx, ih hxs]

theorem assocFind_ptrsOf_mem {ns : List String} {n : String} (h : n ∈ ns) :
    assocFind (ptrsOf ns) n = some (firstOffset ns n) :=
  assocFind_map_self (mem_dedupFirst.mpr h)

theorem assocFind_ptrsOf_not_mem {ns : List String} {n : String} (h : n ∉ ns) :
    assocFind (ptrsOf ns) n = none :=
  assocFind_map_none (fun hc => h (mem_dedupFirst.mp hc))

theorem ptrsOf_snoc_mem {ns : List String} {n : String} (h : n ∈ ns) :
    ptrsOf (ns ++ [n]) = ptrsOf ns := by
  unfold ptrsOf
  rw [dedupFirst_snoc_mem h]
  exact List.map_congr_left (fun m hm => by
    rw [firstOffset_extend (mem_dedupFirst.mp hm)])

theorem ptrsOf_snoc_new {ns : List String} {n : String} (h : n ∉ ns) :
    ptrsOf (ns ++ [n]) = ptrsOf ns ++ [(n, (stringsBufferOf ns).length)] := by
  unfold ptrsOf
  rw [dedupFirst_snoc_new h, List.map_append]
  congr 1
  · exact List.map_congr_left (fun m hm => by
      rw [firstOffset_extend (mem_dedupFirst.mp hm)])
  · simp [firstOffset_snoc_self_new h]

/-! ### Writer inversion lemmas -/

theorem write_u8_ok {w w' : BinaryWriter} {v : Nat} (h : w.write_u8 v = .ok w') :
    w'.buffer = w.buffer ++ leBytes 1 v := by
  rcases except_bind_ok.mp h with ⟨bs, hbs, hw⟩
  obtain ⟨rfl, -⟩ := toBytesLE_ok hbs
  cases hw
  rfl

theorem write_u16_ok {w w' : BinaryWriter} {v : Nat} (h : w.write_u16 v = .ok w') :
    w'.buffer = w.buffer ++ leBytes 2 v := by
  rcases except_bind_ok.mp h with ⟨bs, hbs, hw⟩
  obtain ⟨rfl, -⟩ := toBytesLE_ok hbs
  cases hw
  rfl

theorem write_u32_ok {w w' : BinaryWriter} {v : Nat} (h : w.write_u32 v = .ok w') :
    w'.buffer = w.buffer ++ leBytes 4 v := by
  rcases except_bind_ok.mp h with ⟨bs, hbs, hw⟩
  obtain ⟨rfl, -⟩ := toBytesLE_ok hbs
  cases hw
  rfl

theorem write_pointer_ok {arch : Architecture} {w w' : BinaryWriter} {v : Nat}
    (h : BinaryWriter.write_pointer arch w v = .ok w') :
    w'.buffer = w.buffer ++ leBytes (POINTER_SIZE arch) v := by
  rcases except_bind_ok.mp h with ⟨bs, hbs, hw⟩
  obtain ⟨rfl, -⟩ := toBytesLE_ok hbs
  cases hw
  rfl

theorem write_count_ok {arch : Architecture} {w w' : BinaryWriter} {v : Nat}
    (h : BinaryWriter.write_count arch w v = .ok w') :
    w'.buffer = w.buffer ++ leBytes (COUNT_SIZE arch) v := by
  rcases except_bind_ok.mp h with ⟨bs, hbs, hw⟩
  obtain ⟨rfl, -⟩ := toBytesLE_ok hbs
  cases hw
  rfl

theorem encodeAscii_ok_inv {s : String} {bs : List Nat} (h : encodeAscii s = .ok bs) :
    isAsciiStr s = true ∧ bs = asciiBytes s := by
  unfold encodeAscii at h
  by_cases hc : s.data.all (fun c => c.toNat < 128)
  · rw [if_pos hc] at h
    cases h
    exact ⟨hc, rfl⟩
  · rw [if_neg hc] at h
    cases h

/-- Full description of one successful dedup write, relative to the pure
write-sequence image. -/
theorem write_string_ok_spec {ns : List String} {sw sw' : BinaryStringWriter} {n : String} {p : Nat}
    (hb : sw.buffer = stringsBufferOf ns) (hp : sw.pointers = ptrsOf ns)
    (hall : ∀ m ∈ ns, isAsciiStr m = true)
    (h : sw.write_string n = .ok (p, sw')) :
    isAsciiStr n = true ∧ p = firstOffset (ns ++ [n]) n ∧
    sw'.buffer = stringsBufferOf (ns ++ [n]) ∧ sw'.pointers = ptrsOf (ns ++ [n]) := by
  by_cases hmem : n ∈ ns
  · unfold BinaryStringWriter.write_string at h
    rw [hp, assocFind_ptrsOf_mem hmem] at h
    cases h
    refine ⟨hall n hmem, ?_, ?_, ?_⟩
    · rw [firstOffset_extend hmem]
    · rw [hb, stringsBufferOf_snoc_mem hmem]
    · rw [hp, ptrsOf_snoc_mem hmem]
  · unfold BinaryStringWriter.write_string at h
    rw [hp, assocFind_ptrsOf_not_mem hmem] at h
    rcases except_bind_ok.mp h with ⟨bs, hbs, hok⟩
    obtain ⟨ha, rfl⟩ := encodeAscii_ok_inv hbs
    cases hok
    refine ⟨ha, ?_, ?_, ?_⟩
    · rw [firstOffset_snoc_self_new hmem, BinaryStringWriter.tell, hb]
    · rw [stringsBufferOf_snoc_new hmem]
      simp [hb, strEnc]
    · simp [ptrsOf_snoc_new hmem, BinaryStringWriter.tell, hb]

/-- Full description of one successful phase-1 dedup size step. -/
theorem phase1AddString_ok_spec (ns : List String) {acc acc' : SizeAcc} {n : String}
    (he : acc.existing_strings = dedupFirst ns)
    (hs : acc.strings_size = (stringsBufferOf ns).length)
    (hall : ∀ m ∈ ns, isAsciiStr m = true)
    (h : phase1AddString acc n = .ok acc') :
    isAsciiStr n = true ∧
    acc'.existing_strings = dedupFirst (ns ++ [n]) ∧
    acc'.strings_size = (stringsBufferOf (ns ++ [n])).length ∧
    acc'.assets_size = acc.assets_size ∧ acc'.layers_size = acc.layers_size ∧
    acc'.keyframes_size = acc.keyframes_size := by
  by_cases hmem : n ∈ ns
  · have hmem' : n ∈ acc.existing_strings := by
      rw [he]
      exact mem_dedupFirst.mpr hmem
    unfold phase1AddString at h
    rw [if_pos hmem'] at h
    cases h
    exact ⟨hall n hmem, by rw [he, dedupFirst_snoc_mem hmem],
      by rw [hs, stringsBufferOf_snoc_mem hmem], rfl, rfl, rfl⟩
  · have hmem' : n ∉ acc.existing_strings := by
      rw [he]
      exact fun hc => hmem (mem_dedupFirst.mp hc)
    unfold phase1AddString at h
    rw [if_neg hmem'] at h
    rcases except_bind_ok.mp h with ⟨len, hlen, hok⟩
    rcases except_bind_ok.mp hlen with ⟨bs, hbs, hlen'⟩
    obtain ⟨ha, rfl⟩ := encodeAscii_ok_inv hbs
    cases hlen'
    cases hok
    refine ⟨ha, ?_, ?_, rfl, rfl, rfl⟩
    · rw [he, dedupFirst_snoc_new hmem]
    · rw [stringsBufferOf_snoc_new hmem]
      simp [hs, strEnc, asciiBytes]

/-- A phase-1 dedup step on an ASCII name always succeeds. -/
theorem phase1AddString_ascii_ok (acc : SizeAcc) {n : String} (ha : isAsciiStr n = true) :
    ∃ acc', phase1AddString acc n = .ok acc' := by
  by_cases hmem : n ∈ acc.existing_strings
  · exact ⟨acc, by unfold phase1AddString; rw [if_pos hmem]⟩
  · have hg : getStringEncodedSize n = .ok ((asciiBytes n).length + 1) := by
      unfold getStringEncodedSize
      rw [encodeAscii_ok ha]
      rfl
    refine ⟨{ acc with
        strings_size := acc.strings_size + ((asciiBytes n).length + 1)
        existing_strings := acc.existing_strings ++ [n] }, ?_⟩
    unfold phase1AddString
    rw [if_neg hmem]
    simp [hg, Bind.bind, Except.bind]

/-! ### Phase-1 characterization -/

/-- The write order of asset names during encoding: textures first, then
compositions. -/
def assetNames (P : Project) : List String :=
  P.textures.map Texture.name ++ P.compositions.map Composition.name

/-- The section pointers the phase-1 calculation produces for a project
whose compositions all have zero layers. -/
def zeroLayerSectionPointers (arch : Architecture) (P : Project) : SectionPointers :=
  mkSectionPointers
    (ASSET_SIZE arch * (P.textures.length + P.compositions.length)
      + ASSET_TERMINATOR_SIZE arch + LAYERS_SECTION_POINTER_SIZE arch)
    0 0 ((stringsBufferOf (assetNames P)).length)

theorem phase1Textures_ok_spec {arch : Architecture} {ts : List Texture} (ns : List String)
    {acc acc' : SizeAcc}
    (he : acc.existing_strings = dedupFirst ns)
    (hs : acc.strings_size = (stringsBufferOf ns).length)
    (hall : ∀ m ∈ ns, isAsciiStr m = true)
    (h : phase1Textures arch acc ts = .ok acc') :
    (∀ m ∈ ns ++ ts.map Texture.name, isAsciiStr m = true) ∧
    acc'.existing_strings = dedupFirst (ns ++ ts.map Texture.name) ∧
    acc'.strings_size = (stringsBufferOf (ns ++ ts.map Texture.name)).length ∧
    acc'.assets_size = acc.assets_size + ASSET_SIZE arch * ts.length ∧
    acc'.layers_size = acc.layers_size ∧ acc'.keyframes_size = acc.keyframes_size := by
  induction ts generalizing ns acc with
  | nil =>
    cases h
    simpa using ⟨hall, he, hs⟩
  | cons t ts ih =>
    unfold phase1Textures at h
    rcases except_bind_ok.mp h with ⟨acc2, hadd, hrest⟩
    have he1 : ({ acc with assets_size := acc.assets_size + ASSET_SIZE arch } : SizeAcc).existing_strings
        = dedupFirst ns := he
    have hs1 : ({ acc with assets_size := acc.assets_size + ASSET_SIZE arch } : SizeAcc).strings_size
        = (stringsBufferOf ns).length := hs
    obtain ⟨ha, he2, hs2, hassets2, hlayers2, hkey2⟩ :=
      phase1AddString_ok_spec ns he1 hs1 hall hadd
    have hassets2' : acc2.assets_size = acc.assets_size + ASSET_SIZE arch := hassets2
    have hlayers2' : acc2.layers_size = acc.layers_size := hlayers2
    have hkey2' : acc2.keyframes_size = acc.keyframes_size := hkey2
    have hall2 : ∀ m ∈ ns ++ [t.name], isAsciiStr m = true := by
      intro m hm
      rcases List.mem_append.mp hm with hm | hm
      · exact hall m hm
      · rcases List.mem_singleton.mp hm with rfl
        exact ha
    obtain ⟨ihall, ihe, ihs, ihassets, ihlayers, ihkey⟩ := ih (ns ++ [t.name]) he2 hs2 hall2 hrest
    have hlist : (ns ++ [t.name]) ++ ts.map Texture.name = ns ++ (t :: ts).map Texture.name := by
      simp
    refine ⟨?_, ?_, ?_, ?_, ?_, ?_⟩
    · intro m hm
      exact ihall m (by rw [hlist]; exact hm)
    · rw [ihe, hlist]
    · rw [ihs, hlist]
    · rw [ihassets, hassets2']
      simp only [List.length_cons]
      ring
    · rw [ihlayers, hlayers2']
    · rw [ihkey, hkey2']

theorem phase1Layer_not_ok {arch : Architecture} {acc : SizeAcc} {l : Layer} {x : SizeAcc} :
    phase1Layer arch acc l ≠ .ok x := by
  intro h
  unfold phase1Layer at h
  rcases except_bind_ok.mp h with ⟨acc1, -, h⟩
  rcases except_bind_ok.mp h with ⟨ht, hht, -⟩
  simp [Layer.getattrHasTimeline] at hht

theorem phase1Layer_err_of_ascii {arch : Architecture} {acc : SizeAcc} {l : Layer}
    (ha : isAsciiStr l.name = true) :
    phase1Layer arch acc l = .error "AttributeError: Layer object has no attribute has_timeline" := by
  obtain ⟨acc', hadd⟩ := phase1AddString_ascii_ok
    { acc with layers_size := acc.layers_size + LAYER_SIZE arch } ha
  unfold phase1Layer
  simp [hadd, Bind.bind, Except.bind, Layer.getattrHasTimeline]

theorem phase1Layers_cons_not_ok {arch : Architecture} {acc : SizeAcc} {l : Layer}
    {ls : List Layer} {x : SizeAcc} :
    phase1Layers arch acc (l :: ls) ≠ .ok x := by
  intro h
  unfold phase1Layers at h
  rcases except_bind_ok.mp h with ⟨acc1, hl, -⟩
  exact phase1Layer_not_ok hl

theorem phase1Layers_cons_err_of_ascii {arch : Architecture} {acc : SizeAcc} {l : Layer}
    {ls : List Layer} (ha : isAsciiStr l.name = true) :
    phase1Layers arch acc (l :: ls) =
      .error "AttributeError: Layer object has no attribute has_timeline" := by
  unfold phase1Layers
  simp [phase1Layer_err_of_ascii ha, Bind.bind, Except.bind]

theorem phase1Compositions_ok_spec {arch : Architecture} {cs : List Composition}
    (ns : List String) {acc acc' : SizeAcc}
    (he : acc.existing_strings = dedupFirst ns)
    (hs : acc.strings_size = (stringsBufferOf ns).length)
    (hall : ∀ m ∈ ns, isAsciiStr m = true)
    (h : phase1Compositions arch acc cs = .ok acc') :
    (∀ c ∈ cs, c.layers = []) ∧
    (∀ m ∈ ns ++ cs.map Composition.name, isAsciiStr m = true) ∧
    acc'.existing_strings = dedupFirst (ns ++ cs.map Composition.name) ∧
    acc'.strings_size = (stringsBufferOf (ns ++ cs.map Composition.name)).length ∧
    acc'.assets_size = acc.assets_size + ASSET_SIZE arch * cs.length ∧
    acc'.layers_size = acc.layers_size ∧ acc'.keyframes_size = acc.keyframes_size := by
  induction cs generalizing ns acc with
  | nil =>
    cases h
    simpa using ⟨hall, he, hs⟩
  | cons c cs ih =>
    unfold phase1Compositions at h
    rcases except_bind_ok.mp h with ⟨acc2, hadd, h⟩
    rcases except_bind_ok.mp h with ⟨acc3, hlayers, hrest⟩
    have he1 : ({ acc with assets_size := acc.assets_size + ASSET_SIZE arch } : SizeAcc).existing_strings
        = dedupFirst ns := he
    have hs1 : ({ acc with assets_size := acc.assets_size + ASSET_SIZE arch } : SizeAcc).strings_size
        = (stringsBufferOf ns).length := hs
    obtain ⟨ha, he2, hs2, hassets2, hlayers2, hkey2⟩ :=
      phase1AddString_ok_spec ns he1 hs1 hall hadd
    have hassets2' : acc2.assets_size = acc.assets_size + ASSET_SIZE arch := hassets2
    have hlayers2' : acc2.layers_size = acc.layers_size := hlayers2
    have hkey2' : acc2.keyframes_size = acc.keyframes_size := hkey2
    have hempty : c.layers = [] := by
      cases hcl : c.layers with
      | nil => rfl
      | cons l ls =>
        rw [hcl] at hlayers
        exact absurd hlayers phase1Layers_cons_not_ok
    rw [hempty] at hlayers
    cases hlayers
    have hall2 : ∀ m ∈ ns ++ [c.name], isAsciiStr m = true := by
      intro m hm
      rcases List.mem_append.mp hm with hm | hm
      · exact hall m hm
      · rcases List.mem_singleton.mp hm with rfl
        exact ha
    obtain ⟨ihempty, ihall, ihe, ihs, ihassets, ihlayers, ihkey⟩ := ih (ns ++ [c.name]) he2 hs2 hall2 hrest
    have hlist : (ns ++ [c.name]) ++ cs.map Composition.name = ns ++ (c :: cs).map Composition.name := by
      simp
    refine ⟨?_, ?_, ?_, ?_, ?_, ?_, ?_⟩
    · intro c' hc'
      rcases List.mem_cons.mp hc' with rfl | hc'
      · exact hempty
      · exact ihempty c' hc'
    · intro m hm
      exact ihall m (by rw [hlist]; exact hm)
    · rw [ihe, hlist]
    · rw [ihs, hlist]
    · rw [ihassets, hassets2']
      simp only [List.length_cons]
      ring
    · rw [ihlayers, hlayers2']
    · rw [ihkey, hkey2']

theorem getSectionPointers_ok_spec {arch : Architecture} {P : Project} {sp : SectionPointers}
    (h : getSectionPointers arch P = .ok sp) :
    (∀ c ∈ P.compositions, c.layers = []) ∧
    (∀ m ∈ assetNames P, isAsciiStr m = true) ∧
    sp = zeroLayerSectionPointers arch P := by
  unfold getSectionPointers at h
  rcases except_bind_ok.mp h with ⟨acc1, ht, h⟩
  rcases except_bind_ok.mp h with ⟨acc2, hc, hok⟩
  obtain ⟨hall1, he1, hs1, hassets1, hlayers1, hkey1⟩ :=
    phase1Textures_ok_spec [] rfl rfl (by simp) ht
  obtain ⟨hempty, hall2, he2, hs2, hassets2, hlayers2, hkey2⟩ :=
    phase1Compositions_ok_spec (P.textures.map Texture.name)
      (by simpa using he1) (by simpa using hs1) (by simpa using hall1) hc
  cases hok
  refine ⟨hempty, by simpa [assetNames] using hall2, ?_⟩
  unfold zeroLayerSectionPointers
  have hassets : acc2.assets_size = ASSET_SIZE arch * (P.textures.length + P.compositions.length) := by
    rw [hassets2, hassets1]
    simp
    ring
  rw [hassets, hs2, hlayers2, hlayers1, hkey2, hkey1]
  simp [assetNames]

/-! ### Phase-2 characterization (zero-layer projects) -/

/-- The byte image of one asset record as _encode_asset lays it out. -/
def assetRecordBytes (arch : Architecture)
    (namePointer typeValue width height numLayers layersPointer : Nat) : List Nat :=
  match arch with
  | Architecture.X86 =>
    leBytes 2 (ASSET_SIZE Architecture.X86) ++ leBytes 2 typeValue ++ leBytes 4 namePointer
      ++ leBytes 2 width ++ leBytes 2 height ++ leBytes 4 numLayers ++ leBytes 4 layersPointer
  | Architecture.X64 =>
    leBytes 8 namePointer ++ leBytes 2 (ASSET_SIZE Architecture.X64) ++ leBytes 2 typeValue
      ++ leBytes 2 width ++ leBytes 2 height ++ leBytes 8 layersPointer ++ leBytes 8 numLayers

theorem assetRecordBytes_length (arch : Architecture)
    (np ty w h nl lp : Nat) :
    (assetRecordBytes arch np ty w h nl lp).length = ASSET_SIZE arch := by
  cases arch <;> simp [assetRecordBytes, leBytes_length, ASSET_SIZE]

theorem encodeAsset_ok_spec {arch : Architecture} {sp : SectionPointers} {name : String}
    {ty : AssetType} {wd hg nl lp : Nat} {aw aw' : BinaryWriter} {sw sw' : BinaryStringWriter}
    {ns : List String}
    (hb : sw.buffer = stringsBufferOf ns) (hp : sw.pointers = ptrsOf ns)
    (hall : ∀ m ∈ ns, isAsciiStr m = true)
    (henc : encodeAsset arch sp name ty wd hg nl lp aw sw = .ok (aw', sw')) :
    isAsciiStr name = true ∧
    aw'.buffer = aw.buffer
      ++ assetRecordBytes arch (sp.strings + firstOffset (ns ++ [name]) name) ty.value wd hg nl lp ∧
    sw'.buffer = stringsBufferOf (ns ++ [name]) ∧ sw'.pointers = ptrsOf (ns ++ [name]) := by
  unfold encodeAsset at henc
  rcases except_bind_ok.mp henc with ⟨⟨p, sw1⟩, hws, hrest⟩
  obtain ⟨ha, rfl, hb1, hp1⟩ := write_string_ok_spec hb hp hall hws
  cases arch
  · rcases except_bind_ok.mp hrest with ⟨a1, h1, hrest⟩
    rcases except_bind_ok.mp hrest with ⟨a2, h2, hrest⟩
    rcases except_bind_ok.mp hrest with ⟨a3, h3, hrest⟩
    rcases except_bind_ok.mp hrest with ⟨a4, h4, hrest⟩
    rcases except_bind_ok.mp hrest with ⟨a5, h5, hrest⟩
    rcases except_bind_ok.mp hrest with ⟨a6, h6, hrest⟩
    rcases except_bind_ok.mp hrest with ⟨a7, h7, hrest⟩
    cases hrest
    refine ⟨ha, ?_, hb1, hp1⟩
    rw [write_pointer_ok h7, write_count_ok h6, write_u16_ok h5, write_u16_ok h4,
      write_pointer_ok h3, write_u16_ok h2, write_u16_ok h1]
    simp [assetRecordBytes, POINTER_SIZE, COUNT_SIZE]
  · rcases except_bind_ok.mp hrest with ⟨a1, h1, hrest⟩
    rcases except_bind_ok.mp hrest with ⟨a2, h2, hrest⟩
    rcases except_bind_ok.mp hrest with ⟨a3, h3, hrest⟩
    rcases except_bind_ok.mp hrest with ⟨a4, h4, hrest⟩
    rcases except_bind_ok.mp hrest with ⟨a5, h5, hrest⟩
    rcases except_bind_ok.mp hrest with ⟨a6, h6, hrest⟩
    rcases except_bind_ok.mp hrest with ⟨a7, h7, hrest⟩
    cases hrest
    refine ⟨ha, ?_, hb1, hp1⟩
    rw [write_count_ok h7, write_pointer_ok h6, write_u16_ok h5, write_u16_ok h4,
      write_u16_ok h3, write_u16_ok h2, write_pointer_ok h1]
    simp [assetRecordBytes, POINTER_SIZE, COUNT_SIZE]

theorem encodeTextures_ok_spec {arch : Architecture} {sp : SectionPointers} {ts : List Texture}
    (rest ns : List String) {st st' : EncWriters}
    (hb : st.sw.buffer = stringsBufferOf ns) (hp : st.sw.pointers = ptrsOf ns)
    (hall : ∀ m ∈ ns, isAsciiStr m = true)
    (h : encodeTextures arch sp st ts = .ok st') :
    st'.lw = st.lw ∧ st'.kw = st.kw ∧
    st'.sw.buffer = stringsBufferOf (ns ++ ts.map Texture.name) ∧
    st'.sw.pointers = ptrsOf (ns ++ ts.map Texture.name) ∧
    (∀ m ∈ ns ++ ts.map Texture.name, isAsciiStr m = true) ∧
    st'.aw.buffer = st.aw.buffer ++
      (ts.map fun t => assetRecordBytes arch
        (sp.strings + firstOffset (ns ++ ts.map Texture.name ++ rest) t.name)
        0 t.width t.height 0 0).flatten := by
  induction ts generalizing ns st with
  | nil =>
    cases h
    simpa using ⟨hb, hp, hall⟩
  | cons t ts ih =>
    unfold encodeTextures at h
    rcases except_bind_ok.mp h with ⟨st1, hstep, hrest⟩
    unfold encodeTexture at hstep
    rcases except_bind_ok.mp hstep with ⟨⟨aw1, sw1⟩, hasset, hst1⟩
    cases hst1
    obtain ⟨ha, haw1, hb1, hp1⟩ := encodeAsset_ok_spec hb hp hall hasset
    have hall1 : ∀ m ∈ ns ++ [t.name], isAsciiStr m = true := by
      intro m hm
      rcases List.mem_append.mp hm with hm | hm
      · exact hall m hm
      · rcases List.mem_singleton.mp hm with rfl
        exact ha
    obtain ⟨ihlw, ihkw, ihb, ihp, ihall, ihaw⟩ := ih (ns ++ [t.name]) hb1 hp1 hall1 hrest
    have hlist : (ns ++ [t.name]) ++ ts.map Texture.name = ns ++ (t :: ts).map Texture.name := by
      simp
    have hofs : firstOffset (ns ++ [t.name]) t.name
        = firstOffset (ns ++ (t :: ts).map Texture.name ++ rest) t.name := by
      have hm : t.name ∈ ns ++ [t.name] := by simp
      rw [show ns ++ (t :: ts).map Texture.name ++ rest
          = (ns ++ [t.name]) ++ (ts.map Texture.name ++ rest) by simp,
        firstOffset_extend hm]
    refine ⟨ihlw, ihkw, by rw [ihb, hlist], by rw [ihp, hlist], ?_, ?_⟩
    · intro m hm
      exact ihall m (by rw [hlist]; exact hm)
    · rw [hlist] at ihaw
      rw [ihaw, haw1, hofs]
      simp [List.append_assoc, AssetType.value]

theorem encodeLayers_nil {arch : Architecture} {sp : SectionPointers} {st : EncWriters} :
    encodeLayers arch sp st [] = .ok st := rfl

theorem encodeCompositions_ok_spec {arch : Architecture} {sp : SectionPointers}
    {cs : List Composition} (rest ns : List String) {st st' : EncWriters}
    (hzero : ∀ c ∈ cs, c.layers = [])
    (hb : st.sw.buffer = stringsBufferOf ns) (hp : st.sw.pointers = ptrsOf ns)
    (hall : ∀ m ∈ ns, isAsciiStr m = true)
    (h : encodeCompositions arch sp st cs = .ok st') :
    st'.lw = st.lw ∧ st'.kw = st.kw ∧
    st'.sw.buffer = stringsBufferOf (ns ++ cs.map Composition.name) ∧
    st'.sw.pointers = ptrsOf (ns ++ cs.map Composition.name) ∧
    (∀ m ∈ ns ++ cs.map Composition.name, isAsciiStr m = true) ∧
    st'.aw.buffer = st.aw.buffer ++
      (cs.map fun c => assetRecordBytes arch
        (sp.strings + firstOffset (ns ++ cs.map Composition.name ++ rest) c.name)
        1 c.width c.height c.layers.length (sp.layers + st.lw.tell)).flatten := by
  induction cs generalizing ns st with
  | nil =>
    cases h
    simpa using ⟨hb, hp, hall⟩
  | cons c cs ih =>
    unfold encodeCompositions at h
    rcases except_bind_ok.mp h with ⟨st1, hstep, hrest⟩
    unfold encodeComposition at hstep
    rcases except_bind_ok.mp hstep with ⟨⟨aw1, sw1⟩, hasset, hlayers⟩
    have hcl : c.layers = [] := hzero c (List.mem_cons_self c cs)
    rw [hcl] at hlayers
    cases hlayers
    obtain ⟨ha, haw1, hb1, hp1⟩ := encodeAsset_ok_spec hb hp hall hasset
    have hall1 : ∀ m ∈ ns ++ [c.name], isAsciiStr m = true := by
      intro m hm
      rcases List.mem_append.mp hm with hm | hm
      · exact hall m hm
      · rcases List.mem_singleton.mp hm with rfl
        exact ha
    have hzero' : ∀ c' ∈ cs, c'.layers = [] := fun c' hc' => hzero c' (List.mem_cons_of_mem c hc')
    obtain ⟨ihlw, ihkw, ihb, ihp, ihall, ihaw⟩ := ih (ns ++ [c.name]) hzero' hb1 hp1 hall1 hrest
    have hlist : (ns ++ [c.name]) ++ cs.map Composition.name = ns ++ (c :: cs).map Composition.name := by
      simp
    have hofs : firstOffset (ns ++ [c.name]) c.name
        = firstOffset (ns ++ (c :: cs).map Composition.name ++ rest) c.name := by
      have hm : c.name ∈ ns ++ [c.name] := by simp
      rw [show ns ++ (c :: cs).map Composition.name ++ rest
          = (ns ++ [c.name]) ++ (cs.map Composition.name ++ rest) by simp,
        firstOffset_extend hm]
    refine ⟨ihlw, ihkw, by rw [ihb, hlist], by rw [ihp, hlist], ?_, ?_⟩
    · intro m hm
      exact ihall m (by rw [hlist]; exact hm)
    · rw [hlist] at ihaw
      rw [ihaw, haw1, hofs]
      simp [List.append_assoc, AssetType.value]

/-- The assets-section byte image of the encoder for a zero-layer project:
each record carries a name pointer equal to the strings base plus the first
write offset of that name, and each composition record points at the empty
layers section base. -/
def assetsSectionBytes (arch : Architecture) (sp : SectionPointers) (P : Project) : List Nat :=
  (P.textures.map fun t => assetRecordBytes arch
    (sp.strings + firstOffset (assetNames P) t.name) 0 t.width t.height 0 0).flatten
  ++ (P.compositions.map fun c => assetRecordBytes arch
    (sp.strings + firstOffset (assetNames P) c.name) 1 c.width c.height c.layers.length sp.layers).flatten
  ++ List.replicate (ASSET_TERMINATOR_SIZE arch) 0
  ++ leBytes (POINTER_SIZE arch) sp.layers
  ++ List.replicate (LAYERS_SECTION_POINTER_SIZE arch - POINTER_SIZE arch) 0

/-- Master description of a successful phase 2: only zero-layer projects
complete, the section pointers are the zero-layer ones, the layers and
keyframes buffers stay empty, the strings buffer is the deduplicated
first-occurrence image of the asset names, and the assets buffer is the
record sequence plus terminator block. -/
theorem encodeSections_ok_spec {arch : Architecture} {P : Project} {s : Sections}
    (h : encodeSections arch P = .ok s) :
    (∀ c ∈ P.compositions, c.layers = []) ∧
    (∀ m ∈ assetNames P, isAsciiStr m = true) ∧
    s.sp = zeroLayerSectionPointers arch P ∧
    s.lw.buffer = [] ∧ s.kw.buffer = [] ∧
    s.sw.buffer = stringsBufferOf (assetNames P) ∧
    s.sw.pointers = ptrsOf (assetNames P) ∧
    s.aw.buffer = assetsSectionBytes arch s.sp P := by
  unfold encodeSections at h
  rcases except_bind_ok.mp h with ⟨sp, hsp, h⟩
  rcases except_bind_ok.mp h with ⟨st1, ht, h⟩
  rcases except_bind_ok.mp h with ⟨st2, hc, h⟩
  rcases except_bind_ok.mp h with ⟨aw3, hptr, hok⟩
  obtain ⟨hzero, hascii, hspv⟩ := getSectionPointers_ok_spec hsp
  obtain ⟨hlw1, hkw1, hb1, hp1, hall1, haw1⟩ :=
    encodeTextures_ok_spec (P.compositions.map Composition.name) []
      rfl rfl (by simp) ht
  obtain ⟨hlw2, hkw2, hb2, hp2, hall2, haw2⟩ :=
    encodeCompositions_ok_spec [] (P.textures.map Texture.name)
      hzero (by simpa using hb1) (by simpa using hp1) (by simpa using hall1) hc
  cases hok
  have hlw : st2.lw = (⟨[]⟩ : BinaryWriter) := by rw [hlw2, hlw1]
  have hkw : st2.kw = (⟨[]⟩ : BinaryWriter) := by rw [hkw2, hkw1]
  have hawbytes : aw3.buffer = st2.aw.buffer
      ++ List.replicate (ASSET_TERMINATOR_SIZE arch) 0 ++ leBytes (POINTER_SIZE arch) sp.layers := by
    have := write_pointer_ok hptr
    simpa [BinaryWriter.write_terminator] using this
  refine ⟨hzero, hascii, hspv, by simp [hlw], by simp [hkw], by simpa [assetNames] using hb2,
    by simpa [assetNames] using hp2, ?_⟩
  show aw3.buffer ++ List.replicate (LAYERS_SECTION_POINTER_SIZE arch - POINTER_SIZE arch) 0
      = assetsSectionBytes arch sp P
  rw [hawbytes, haw2, haw1, hlw1]
  unfold assetsSectionBytes assetNames
  simp [List.append_assoc, BinaryWriter.tell]

/-! ### splitOnChar lemmas (for the asset_name claim) -/

theorem splitOnChar_ne_nil (c : Char) (l : List Char) : splitOnChar c l ≠ [] := by
  cases l with
  | nil => simp [splitOnChar]
  | cons x xs =>
    unfold splitOnChar
    cases h : splitOnChar c xs with
    | nil => simp
    | cons ys rest =>
      by_cases hx : x = c <;> simp [hx]

theorem splitOnChar_head (c : Char) (l : List Char) :
    (splitOnChar c l).headD [] = l.takeWhile (· != c) := by
  induction l with
  | nil => simp [splitOnChar]
  | cons x xs ih =>
    unfold splitOnChar
    cases h : splitOnChar c xs with
    | nil => exact absurd h (splitOnChar_ne_nil c xs)
    | cons ys rest =>
      rw [h] at ih
      by_cases hx : x = c
      · subst hx
        simp [List.takeWhile]
      · simp only [if_neg hx, List.headD_cons, List.takeWhile]
        have hbx : (x != c) = true := bne_iff_ne.mpr hx
        rw [hbx]
        simpa using ih

theorem splitOnChar_second (c : Char) (l : List Char) (h : c ∈ l) :
    (splitOnChar c l).getD 1 [] = ((l.dropWhile (· != c)).tail).takeWhile (· != c) := by
  induction l with
  | nil => simp at h
  | cons x xs ih =>
    unfold splitOnChar
    cases hs : splitOnChar c xs with
    | nil => exact absurd hs (splitOnChar_ne_nil c xs)
    | cons ys rest =>
      by_cases hx : x = c
      · subst hx
        have hys : ys = xs.takeWhile (· != x) := by
          have := splitOnChar_head x xs
          rw [hs] at this
          simpa using this
        simp [List.dropWhile, hys]
      · have hxs : c ∈ xs := by
          rcases List.mem_cons.mp h with hc | hc
          · exact absurd hc.symm hx
          · exact hc
        have := ih hxs
        rw [hs] at this
        have hbx : (x != c) = true := bne_iff_ne.mpr hx
        simp only [if_neg hx, List.dropWhile, hbx]
        simpa using this

/-- C10 counterexample: the layer name x-b-c contains two hyphens; the
claim says asset_name is everything after the first hyphen (b-c), but the
code takes Python split field 1, which is b. -/
theorem c10_asset_name_counterexample :
    Layer.asset_name { layerL with name := "x-b-c" } = "b" ∧
    Layer.asset_name { layerL with name := "x-b-c" } ≠ "b-c" := by
  constructor <;> decide

/-- C10 amended: for a layer whose name contains a hyphen, asset_name is
the field between the first and the second hyphen (all of the remainder
when there is no second hyphen); for a name without a hyphen, the full
name. -/
theorem c10_asset_name (l : Layer) :
    (l.name.data.contains '-' = true →
      l.asset_name = String.mk (((l.name.data.dropWhile (· != '-')).tail).takeWhile (· != '-'))) ∧
    (l.name.data.contains '-' = false → l.asset_name = l.name) := by
  constructor
  · intro h
    unfold Layer.asset_name
    rw [if_pos h]
    congr 1
    exact splitOnChar_second '-' l.name.data (by simpa using h)
  · intro h
    unfold Layer.asset_name
    rw [if_neg (by simpa using h)]

/-- C10 witness for the amended statement at the concrete name x-b-c and a
hyphen-free name. -/
theorem c10_asset_name_witness :
    Layer.asset_name { layerL with name := "x-b-c" } =
      String.mk ((("x-b-c".data.dropWhile (· != '-')).tail).takeWhile (· != '-')) ∧
    Layer.asset_name layerL = layerL.name :=
  ⟨(c10_asset_name { layerL with name := "x-b-c" }).1 (by decide),
   (c10_asset_name layerL).2 (by decide)⟩

/-! ### Colour keyframe lemmas -/

instance {ε α : Type} [DecidableEq ε] [DecidableEq α] : DecidableEq (Except ε α) := fun x y =>
  match x, y with
  | .error a, .error b =>
    if h : a = b then isTrue (by rw [h]) else isFalse (by intro hc; cases hc; exact h rfl)
  | .ok a, .ok b =>
    if h : a = b then isTrue (by rw [h]) else isFalse (by intro hc; cases hc; exact h rfl)
  | .error _, .ok _ => isFalse (by intro hc; cases hc)
  | .ok _, .error _ => isFalse (by intro hc; cases hc)

theorem toBytesLE_of_lt {len v : Nat} (h : v < 256 ^ len) :
    toBytesLE len v = .ok (leBytes len v) := by
  simp [toBytesLE, h]

theorem write_u8_of_lt {w : BinaryWriter} {v : Nat} (h : v < 256) :
    w.write_u8 v = .ok ⟨w.buffer ++ leBytes 1 v⟩ := by
  unfold BinaryWriter.write_u8
  rw [toBytesLE_of_lt (by simpa using h)]
  rfl

theorem write_u16_of_lt {w : BinaryWriter} {v : Nat} (h : v < 65536) :
    w.write_u16 v = .ok ⟨w.buffer ++ leBytes 2 v⟩ := by
  unfold BinaryWriter.write_u16
  rw [toBytesLE_of_lt (by simpa using h)]
  rfl

theorem leBytes_one_of_lt {v : Nat} (h : v < 256) : leBytes 1 v = [v] := by
  simp [leBytes, Nat.mod_eq_of_lt h]

/-- The components of a colour keyframe fit the wire ranges: frame in u16,
each component in u8. -/
def colourInRange (k : ColourKeyframe) : Prop :=
  k.frame < 65536 ∧
  0 ≤ k.r ∧ k.r < 256 ∧ 0 ≤ k.g ∧ k.g < 256 ∧
  0 ≤ k.b ∧ k.b < 256 ∧ 0 ≤ k.a ∧ k.a < 256

instance (k : ColourKeyframe) : Decidable (colourInRange k) := by
  unfold colourInRange
  infer_instance

/-- The size-8 wire record of one colour keyframe. -/
def colourRecordBytes (k : ColourKeyframe) : List Nat :=
  leBytes 2 8 ++ leBytes 2 k.frame ++ [k.r.toNat, k.g.toNat, k.b.toNat, k.a.toNat]

theorem pyU8_of_range {v : ℤ} (h0 : 0 ≤ v) (h1 : v < 256) : pyU8 v = .ok v.toNat := by
  simp [pyU8, h0, h1]

theorem encodeColourKeyframe_ok {k : ColourKeyframe} {sp : SectionPointers}
    {kw : BinaryWriter} {sw : BinaryStringWriter} (h : colourInRange k) :
    encodeColourKeyframe k sp kw sw =
      .ok (⟨kw.buffer ++ [k.r.toNat, k.g.toNat, k.b.toNat, k.a.toNat]⟩, sw) := by
  obtain ⟨-, hr0, hr1, hg0, hg1, hb0, hb1, ha0, ha1⟩ := h
  have tr : k.r.toNat < 256 := by omega
  have tg : k.g.toNat < 256 := by omega
  have tb : k.b.toNat < 256 := by omega
  have ta : k.a.toNat < 256 := by omega
  unfold encodeColourKeyframe
  simp [pyU8_of_range hr0 hr1, pyU8_of_range hg0 hg1, pyU8_of_range hb0 hb1,
    pyU8_of_range ha0 ha1, write_u8_of_lt tr, write_u8_of_lt tg, write_u8_of_lt tb,
    write_u8_of_lt ta, leBytes_one_of_lt tr, leBytes_one_of_lt tg, leBytes_one_of_lt tb,
    leBytes_one_of_lt ta, Bind.bind, Except.bind, List.append_assoc]

theorem COLOUR_KEYFRAME_SIZE_eq (arch : Architecture) : COLOUR_KEYFRAME_SIZE arch = 8 := by
  cases arch <;> rfl

theorem pyTrunc_nonneg {q : ℚ} (h : 0 ≤ q) : pyTrunc q = ⌊q⌋ := by
  unfold pyTrunc
  have hnum : 0 ≤ q.num := Rat.num_nonneg.mpr h
  rw [if_neg (not_lt.mpr hnum)]
  conv_rhs => rw [Rat.floor_def, ← Int.natAbs_of_nonneg hnum]
  exact Int.ofNat_tdiv _ _

theorem f32FromBits_one : f32FromBits 0x3F800000 = .ok 1 := by
  unfold f32FromBits
  norm_num

theorem f32FromBits_half : f32FromBits 0x3F000000 = .ok (1 / 2) := by
  unfold f32FromBits
  norm_num

theorem f32FromBits_zero : f32FromBits 0 = .ok 0 := by
  unfold f32FromBits
  norm_num

theorem read_f32_eval {file : List Nat} {p : Nat} {q : ℚ}
    (hbytes : f32FromBits (fromBytesLE ((file.drop p).take 4)) = .ok q)
    (hlen : ((file.drop p).take 4).length = 4) :
    BinaryReader.read_f32 ⟨file, p⟩ = .ok (q, ⟨file, p + 4⟩) := by
  unfold BinaryReader.read_f32 BinaryReader.readBytes
  simp [hbytes, hlen, Bind.bind, Except.bind]

/-- The size-20 concrete decode of C7, proved through the exact rational
values of the four wire f32 components. -/
theorem decodeColour20_concrete :
    decodeColourKeyframe 20 5 ⟨colourF32Bytes, 0⟩ =
      .ok (⟨5, 255, 127, 0, 255⟩, ⟨colourF32Bytes, 16⟩) := by
  have hr1 : BinaryReader.read_f32 ⟨colourF32Bytes, 0⟩ = .ok (1, ⟨colourF32Bytes, 4⟩) :=
    read_f32_eval (by norm_num [colourF32Bytes, fromBytesLE, f32FromBits]) (by decide)
  have hr2 : BinaryReader.read_f32 ⟨colourF32Bytes, 4⟩ = .ok (1 / 2, ⟨colourF32Bytes, 8⟩) :=
    read_f32_eval (by norm_num [colourF32Bytes, fromBytesLE, f32FromBits]) (by decide)
  have hr3 : BinaryReader.read_f32 ⟨colourF32Bytes, 8⟩ = .ok (0, ⟨colourF32Bytes, 12⟩) :=
    read_f32_eval (by norm_num [colourF32Bytes, fromBytesLE, f32FromBits]) (by decide)
  have hr4 : BinaryReader.read_f32 ⟨colourF32Bytes, 12⟩ = .ok (1, ⟨colourF32Bytes, 16⟩) :=
    read_f32_eval (by norm_num [colourF32Bytes, fromBytesLE, f32FromBits]) (by decide)
  unfold decodeColourKeyframe
  rw [if_neg (by norm_num), if_neg (by norm_num)]
  simp only [Bind.bind, Except.bind, hr1, hr2, hr3, hr4]
  simp
  refine ⟨?_, ?_, ?_, ?_⟩ <;>
  · rw [pyTrunc_nonneg (by norm_num), Int.floor_eq_iff]
    constructor <;> norm_num

theorem encodeColourItems_spec {arch : Architecture} {sp : SectionPointers}
    (ks : List ColourKeyframe) (kw : BinaryWriter) (sw : BinaryStringWriter)
    (h : ∀ k ∈ ks, colourInRange k) :
    encodeKeyframesItems arch COLOUR_KEYFRAME_SIZE ColourKeyframe.frame sp
      encodeColourKeyframe ks kw sw =
      .ok (⟨kw.buffer ++ (ks.map colourRecordBytes).flatten⟩, sw) := by
  induction ks generalizing kw with
  | nil => simp [encodeKeyframesItems]
  | cons k ks ih =>
    have hk := h k (List.mem_cons_self k ks)
    have h8 : (8 : Nat) < 65536 := by norm_num
    simp only [encodeKeyframesItems, COLOUR_KEYFRAME_SIZE_eq, Bind.bind, Except.bind,
      write_u16_of_lt h8, write_u16_of_lt hk.1, encodeColourKeyframe_ok hk]
    rw [ih _ (fun k' hk' => h k' (List.mem_cons_of_mem k hk'))]
    simp [colourRecordBytes, List.append_assoc]

/-- C7: the colour keyframe decoder accepts only sizes 8 and 20 and fails
on any other size with the source message; a size-20 record holding the f32
components 1.0, 0.5, 0.0, 1.0 decodes by truncation to r=255, g=127, b=0,
a=255; and the colour track encoder emits every record, and its sentinel,
in the size-8 form. -/
theorem c7_colour_dual_encoding :
    (∀ (size frame : Nat) (r : BinaryReader), size ≠ 8 → size ≠ 20 →
      decodeColourKeyframe size frame r =
        .error ("colour keyframe not 8 or 20 bytes (" ++ toString size ++ ")")) ∧
    decodeColourKeyframe 20 5 ⟨colourF32Bytes, 0⟩ =
      .ok (⟨5, 255, 127, 0, 255⟩, ⟨colourF32Bytes, 16⟩) ∧
    (∀ (arch : Architecture) (ks : List ColourKeyframe) (sp : SectionPointers)
      (kw : BinaryWriter) (sw : BinaryStringWriter), (∀ k ∈ ks, colourInRange k) →
      encodeKeyframes arch (some ks) COLOUR_KEYFRAME_SIZE ColourKeyframe.frame sp kw sw
        encodeColourKeyframe =
        .ok (sp.keyframes + kw.tell,
          ⟨kw.buffer ++ (ks.map colourRecordBytes).flatten
            ++ (leBytes 2 8 ++ leBytes 2 0xffff ++ List.replicate 4 0)⟩, sw)) := by
  refine ⟨?_, decodeColour20_concrete, ?_⟩
  · intro size frame r h8 h20
    unfold decodeColourKeyframe
    rw [if_pos ⟨h8, h20⟩]
  · intro arch ks sp kw sw h
    have h8 : (8 : Nat) < 65536 := by norm_num
    have hff : (0xffff : Nat) < 65536 := by norm_num
    simp only [encodeKeyframes, COLOUR_KEYFRAME_SIZE_eq, Bind.bind, Except.bind,
      encodeColourItems_spec ks kw sw h, write_u16_of_lt h8, write_u16_of_lt hff]
    simp [BinaryWriter.write_terminator, BinaryWriter.tell, List.append_assoc]

/-- C7 witness: size 9 is rejected; a one-record track with components
(1, 2, 3, 4) at frame 0 is emitted in the size-8 form. -/
theorem c7_colour_dual_encoding_witness :
    decodeColourKeyframe 9 5 ⟨colourF32Bytes, 0⟩ =
      .error ("colour keyframe not 8 or 20 bytes (" ++ toString 9 ++ ")") ∧
    encodeKeyframes Architecture.X86 (some ([⟨0, 1, 2, 3, 4⟩] : List ColourKeyframe))
      COLOUR_KEYFRAME_SIZE ColourKeyframe.frame (mkSectionPointers 32 0 0 0) ⟨[]⟩ ⟨[], []⟩
      encodeColourKeyframe =
      .ok ((mkSectionPointers 32 0 0 0).keyframes + BinaryWriter.tell ⟨[]⟩,
        ⟨([] : List Nat) ++ (([⟨0, 1, 2, 3, 4⟩] : List ColourKeyframe).map colourRecordBytes).flatten
          ++ (leBytes 2 8 ++ leBytes 2 0xffff ++ List.replicate 4 0)⟩, ⟨[], []⟩) :=
  ⟨c7_colour_dual_encoding.1 9 5 ⟨colourF32Bytes, 0⟩ (by decide) (by decide),
   c7_colour_dual_encoding.2.2 Architecture.X86 ([⟨0, 1, 2, 3, 4⟩] : List ColourKeyframe)
     (mkSectionPointers 32 0 0 0) ⟨[]⟩ ⟨[], []⟩ (by decide)⟩

/-! ### C1, C2, C5 -/

/-- The x86 binary encoding of textureProject: one 20-byte asset record,
the 16-byte terminator, the layers base pointer 52 padded to 16 bytes, and
the strings section a NUL-terminated. -/
def texFileBytes : List Nat :=
  [20, 0, 0, 0, 52, 0, 0, 0, 2, 0, 3, 0, 0, 0, 0, 0, 0, 0, 0, 0]
  ++ List.replicate 16 0 ++ [52, 0, 0, 0] ++ List.replicate 12 0 ++ [97, 0]

/-- C1: the model-level binary round trip fails as soon as a project
contains a layer, because phase 1 of the encoder reads the undefined
has_timeline attribute; on both architectures encoding the one-layer
project raises AttributeError and produces no file, while a layerless
project (one texture) still encodes and decodes back to itself.  The spec
states the round trip for every project, so this is a bug in the code, not
in the spec. -/
theorem c1_binary_roundtrip_code_bug :
    binEncode Architecture.X86 projWithLayer =
      .error "AttributeError: Layer object has no attribute has_timeline" ∧
    binEncode Architecture.X64 projWithLayer =
      .error "AttributeError: Layer object has no attribute has_timeline" ∧
    binEncode Architecture.X86 textureProject = .ok texFileBytes ∧
    binDecode Architecture.X86 300 texFileBytes = .ok textureProject :=
  ⟨by decide, by decide, by decide, by decide⟩

/-- C2: the JSON round trip fails for any project with a present keyframe
track.  The encoder assigns each track with a trailing comma, wrapping the
keyframe array in a one-element tuple, and writes rotation values under the
key rotation while the decoder requires the key degrees; decoding the
encoder output of a project with one rotation keyframe fails with a
TypeError at the first keyframe.  The spec states the round trip, so this
is a bug in the code. -/
theorem c2_json_roundtrip_code_bug :
    jsonDecode (jsonEncode rotProject) = .error "TypeError: indices must be integers, not str" := by
  decide

/-- C5 counterexample: the empty project encodes at x86 to 16 NULs, the
little-endian u32 value 32 (not 16 as the claim states), then 12 NULs:
assets_size includes both the 16-byte terminator and the 16-byte
pointer-plus-padding block, so the layers base is 32. -/
theorem c5_empty_project_counterexample :
    binEncode Architecture.X86 emptyProject =
      .ok (List.replicate 16 0 ++ [32, 0, 0, 0] ++ List.replicate 12 0) ∧
    (List.replicate 16 0 ++ [32, 0, 0, 0] ++ List.replicate 12 0 : List Nat) ≠
      List.replicate 16 0 ++ [16, 0, 0, 0] ++ List.replicate 12 0 :=
  ⟨by decide, by decide⟩

/-- C5 amended: the empty project encodes at x86 to exactly 32 bytes:
16 NUL bytes, then the little-endian u32 value 32 as the layers-section
base pointer (equal to assets_size, which counts the terminator and the
pointer block), then 12 NUL bytes. -/
theorem c5_empty_project_amended :
    binEncode Architecture.X86 emptyProject =
      .ok (List.replicate 16 0 ++ [32, 0, 0, 0] ++ List.replicate 12 0) ∧
    (List.replicate 16 0 ++ [32, 0, 0, 0] ++ List.replicate 12 0 : List Nat).length = 32 :=
  ⟨by decide, by decide⟩

/-! ### C3 -/

theorem phase1Compositions_not_ok {arch : Architecture} {acc acc' : SizeAcc}
    {cs : List Composition} (h : ∃ c ∈ cs, c.layers ≠ [])
    (hok : phase1Compositions arch acc cs = .ok acc') : False := by
  induction cs generalizing acc with
  | nil =>
    obtain ⟨c, hc, -⟩ := h
    simp at hc
  | cons c cs ih =>
    unfold phase1Compositions at hok
    rcases except_bind_ok.mp hok with ⟨acc2, hadd, hok⟩
    rcases except_bind_ok.mp hok with ⟨acc3, hlay, hok⟩
    cases hcl : c.layers with
    | cons l ls =>
      rw [hcl] at hlay
      exact phase1Layers_cons_not_ok hlay
    | nil =>
      obtain ⟨c', hc', hne⟩ := h
      rcases List.mem_cons.mp hc' with rfl | hc'
      · exact hne hcl
      · exact ih ⟨c', hc', hne⟩ hok

theorem phase1Compositions_err_attr {arch : Architecture} {acc : SizeAcc}
    {cs : List Composition}
    (hascii : ∀ c ∈ cs, isAsciiStr c.name = true ∧ ∀ l ∈ c.layers, isAsciiStr l.name = true)
    (h : ∃ c ∈ cs, c.layers ≠ []) :
    phase1Compositions arch acc cs =
      .error "AttributeError: Layer object has no attribute has_timeline" := by
  induction cs generalizing acc with
  | nil =>
    obtain ⟨c, hc, -⟩ := h
    simp at hc
  | cons c cs ih =>
    obtain ⟨acc2, hadd⟩ := phase1AddString_ascii_ok
      { acc with assets_size := acc.assets_size + ASSET_SIZE arch }
      (hascii c (List.mem_cons_self c cs)).1
    cases hcl : c.layers with
    | cons l ls =>
      have hl : isAsciiStr l.name = true :=
        (hascii c (List.mem_cons_self c cs)).2 l (by rw [hcl]; exact List.mem_cons_self l ls)
      unfold phase1Compositions
      simp [hadd, hcl, Bind.bind, Except.bind, phase1Layers_cons_err_of_ascii hl]
    | nil =>
      obtain ⟨c', hc', hne⟩ := h
      have hc'' : c' ∈ cs := by
        rcases List.mem_cons.mp hc' with rfl | hc'
        · exact absurd hcl hne
        · exact hc'
      unfold phase1Compositions
      have hnil : phase1Layers arch acc2 c.layers = .ok acc2 := by rw [hcl]; rfl
      simp [hadd, hnil, Bind.bind, Except.bind,
        ih (fun c hc => hascii c (List.mem_cons_of_mem _ hc)) ⟨c', hc'', hne⟩]

theorem phase1Textures_ascii_ok (arch : Architecture) {ts : List Texture} (acc : SizeAcc)
    (h : ∀ t ∈ ts, isAsciiStr t.name = true) :
    ∃ acc', phase1Textures arch acc ts = .ok acc' := by
  induction ts generalizing acc with
  | nil => exact ⟨acc, rfl⟩
  | cons t ts ih =>
    obtain ⟨acc2, hadd⟩ := phase1AddString_ascii_ok
      { acc with assets_size := acc.assets_size + ASSET_SIZE arch }
      (h t (List.mem_cons_self t ts))
    obtain ⟨acc', hrest⟩ := ih acc2 (fun t' ht' => h t' (List.mem_cons_of_mem t ht'))
    refine ⟨acc', ?_⟩
    unfold phase1Textures
    simp [hadd, Bind.bind, Except.bind, hrest]

theorem getSectionPointers_not_ok {arch : Architecture} {P : Project} {sp : SectionPointers}
    (hlayer : ∃ c ∈ P.compositions, c.layers ≠ [])
    (h : getSectionPointers arch P = .ok sp) : False := by
  unfold getSectionPointers at h
  rcases except_bind_ok.mp h with ⟨acc1, -, h⟩
  rcases except_bind_ok.mp h with ⟨acc2, hc, -⟩
  exact phase1Compositions_not_ok hlayer hc

theorem getSectionPointers_err_attr {arch : Architecture} {P : Project}
    (ht : ∀ t ∈ P.textures, isAsciiStr t.name = true)
    (hcs : ∀ c ∈ P.compositions, isAsciiStr c.name = true ∧ ∀ l ∈ c.layers, isAsciiStr l.name = true)
    (hlayer : ∃ c ∈ P.compositions, c.layers ≠ []) :
    getSectionPointers arch P =
      .error "AttributeError: Layer object has no attribute has_timeline" := by
  obtain ⟨acc1, htex⟩ := phase1Textures_ascii_ok arch ⟨0, 0, 0, 0, []⟩ ht
  unfold getSectionPointers
  simp [htex, Bind.bind, Except.bind, phase1Compositions_err_attr hcs hlayer]

theorem binEncode_err_of_gsp {arch : Architecture} {P : Project} {e : String}
    (h : getSectionPointers arch P = .error e) : binEncode arch P = .error e := by
  unfold binEncode encodeSections
  simp [h, Bind.bind, Except.bind]

theorem binEncode_ok_imp_gsp {arch : Architecture} {P : Project} {bs : List Nat}
    (h : binEncode arch P = .ok bs) : ∃ sp, getSectionPointers arch P = .ok sp := by
  unfold binEncode at h
  rcases except_bind_ok.mp h with ⟨s, hs, -⟩
  unfold encodeSections at hs
  rcases except_bind_ok.mp hs with ⟨sp, hsp, -⟩
  exact ⟨sp, hsp⟩

/-- C3 amended: binary-encoding a project with at least one layer always
fails before any bytes reach the output; when every asset and layer name is
ASCII the failure is the AttributeError on the undefined has_timeline
attribute (a non-ASCII name reached first raises a UnicodeEncodeError even
earlier, which is the one correction to the claim); the layer encoder path
_encode_timeline likewise never succeeds; hence binary encode completes
only for projects whose compositions all have zero layers. -/
theorem c3_layered_encode_fails (arch : Architecture) (P : Project)
    (hlayer : ∃ c ∈ P.compositions, c.layers ≠ []) :
    (∀ bs, binEncode arch P ≠ .ok bs) ∧
    ((∀ t ∈ P.textures, isAsciiStr t.name = true) →
      (∀ c ∈ P.compositions, isAsciiStr c.name = true ∧ ∀ l ∈ c.layers, isAsciiStr l.name = true) →
      binEncode arch P = .error "AttributeError: Layer object has no attribute has_timeline") ∧
    (∀ (sp : SectionPointers) (l : Layer) (kw : BinaryWriter) (x : Nat × BinaryWriter),
      encodeTimeline arch sp l kw ≠ .ok x) := by
  refine ⟨?_, ?_, ?_⟩
  · intro bs h
    obtain ⟨sp, hsp⟩ := binEncode_ok_imp_gsp h
    exact getSectionPointers_not_ok hlayer hsp
  · intro ht hcs
    exact binEncode_err_of_gsp (getSectionPointers_err_attr ht hcs hlayer)
  · intro sp l kw x h
    unfold encodeTimeline at h
    rcases except_bind_ok.mp h with ⟨b, hb, -⟩
    simp [Layer.getattrHasTimeline] at hb

/-- C3 witness: the ASCII one-layer project fails with the AttributeError
on both claims of the amended statement. -/
theorem c3_layered_encode_fails_witness :
    binEncode Architecture.X86 projWithLayer ≠ .ok [] ∧
    binEncode Architecture.X86 projWithLayer =
      .error "AttributeError: Layer object has no attribute has_timeline" ∧
    encodeTimeline Architecture.X86 (mkSectionPointers 32 0 0 0) layerL ⟨[]⟩ ≠ .ok (0, ⟨[]⟩) :=
  have hlayer : ∃ c ∈ projWithLayer.compositions, c.layers ≠ [] :=
    ⟨⟨"c", 1, 1, [layerL]⟩, by decide⟩
  ⟨(c3_layered_encode_fails Architecture.X86 projWithLayer hlayer).1 [],
   (c3_layered_encode_fails Architecture.X86 projWithLayer hlayer).2.1 (by decide) (by decide),
   (c3_layered_encode_fails Architecture.X86 projWithLayer hlayer).2.2
     (mkSectionPointers 32 0 0 0) layerL ⟨[]⟩ (0, ⟨[]⟩)⟩

/-- C3 counterexample: a project with one layer whose name contains a
non-ASCII character fails with a UnicodeEncodeError, not an AttributeError,
refuting the claim that every layered project raises AttributeError. -/
theorem c3_counterexample :
    binEncode Architecture.X86 nonAsciiProject =
      .error "UnicodeEncodeError: ascii codec cannot encode character" ∧
    "UnicodeEncodeError: ascii codec cannot encode character" ≠
      "AttributeError: Layer object has no attribute has_timeline" :=
  ⟨by decide, by decide⟩

/-! ### C9 -/

theorem readBytes_full {r : BinaryReader} {n : Nat} (h : r.pos + n ≤ r.file.length) :
    r.readBytes n = ((r.file.drop r.pos).take n, ⟨r.file, r.pos + n⟩) := by
  unfold BinaryReader.readBytes
  have hlen : ((r.file.drop r.pos).take n).length = n := by
    rw [List.length_take, List.length_drop]
    omega
  simp [hlen]

theorem read_u16_full {r : BinaryReader} (h : r.pos + 2 ≤ r.file.length) :
    r.read_u16 = (fromBytesLE ((r.file.drop r.pos).take 2), ⟨r.file, r.pos + 2⟩) := by
  unfold BinaryReader.read_u16
  rw [readBytes_full h]

theorem read_u32_full {r : BinaryReader} (h : r.pos + 4 ≤ r.file.length) :
    r.read_u32 = (fromBytesLE ((r.file.drop r.pos).take 4), ⟨r.file, r.pos + 4⟩) := by
  unfold BinaryReader.read_u32
  rw [readBytes_full h]

theorem LAYER_TIMELINE_SIZE_eq (arch : Architecture) : LAYER_TIMELINE_SIZE arch = 12 := by
  cases arch <;> rfl

/-- C9 counterexample: the JSON decoder returns a project whose layer has
timeline_unknown2 = 4095, refuting the claim that every decode rejects a
value different from 4096. -/
theorem c9_counterexample :
    jsonDecode unknown2Json = .ok ⟨[], [⟨"c", 1, 1, [unknown2Layer]⟩]⟩ ∧
    unknown2Layer.timeline_unknown2 = some 4095 :=
  ⟨by decide, by decide⟩

/-- C9 amended: the binary layer decoder rejects a present, well-sized
timeline record whose unknown2 field differs from 4096 with the not-4096
error, but the JSON decoder only bounds-checks the field as a u32 and
returns a project carrying timeline_unknown2 = 4095. -/
theorem c9_timeline_unknown2 (arch : Architecture) (name : String) (tlptr : Nat)
    (r : BinaryReader)
    (hptr : tlptr ≠ 0)
    (hfit : tlptr + 12 ≤ r.file.length)
    (hsize : fromBytesLE ((r.file.drop tlptr).take 2) = 12)
    (hu2 : fromBytesLE ((r.file.drop (tlptr + 8)).take 4) ≠ 4096) :
    decodeLayerTimeline arch name tlptr r =
      .error ("layer " ++ name ++ " unknown2 not 4096 ("
        ++ toString (fromBytesLE ((r.file.drop (tlptr + 8)).take 4)) ++ ")") ∧
    jsonDecode unknown2Json = .ok ⟨[], [⟨"c", 1, 1, [unknown2Layer]⟩]⟩ := by
  refine ⟨?_, by decide⟩
  have h1 : (⟨r.file, tlptr⟩ : BinaryReader).read_u16
      = (fromBytesLE ((r.file.drop tlptr).take 2), ⟨r.file, tlptr + 2⟩) :=
    read_u16_full (by show tlptr + 2 ≤ r.file.length; omega)
  have h2 : (⟨r.file, tlptr + 2⟩ : BinaryReader).read_u16
      = (fromBytesLE ((r.file.drop (tlptr + 2)).take 2), ⟨r.file, tlptr + 2 + 2⟩) :=
    read_u16_full (by show tlptr + 2 + 2 ≤ r.file.length; omega)
  have h3 : (⟨r.file, tlptr + 2 + 2⟩ : BinaryReader).read_u16
      = (fromBytesLE ((r.file.drop (tlptr + 2 + 2)).take 2), ⟨r.file, tlptr + 2 + 2 + 2⟩) :=
    read_u16_full (by show tlptr + 2 + 2 + 2 ≤ r.file.length; omega)
  have h4 : (⟨r.file, tlptr + 2 + 2 + 2⟩ : BinaryReader).read_u16
      = (fromBytesLE ((r.file.drop (tlptr + 2 + 2 + 2)).take 2), ⟨r.file, tlptr + 2 + 2 + 2 + 2⟩) :=
    read_u16_full (by show tlptr + 2 + 2 + 2 + 2 ≤ r.file.length; omega)
  have h5 : (⟨r.file, tlptr + 2 + 2 + 2 + 2⟩ : BinaryReader).read_u32
      = (fromBytesLE ((r.file.drop (tlptr + 2 + 2 + 2 + 2)).take 4),
         ⟨r.file, tlptr + 2 + 2 + 2 + 2 + 4⟩) :=
    read_u32_full (by show tlptr + 2 + 2 + 2 + 2 + 4 ≤ r.file.length; omega)
  have hshift : tlptr + 2 + 2 + 2 + 2 = tlptr + 8 := by omega
  rw [hshift] at h5
  unfold decodeLayerTimeline
  rw [if_pos hptr]
  simp only [BinaryReader.seek, h1, h2, h3, h4, hshift, h5, hsize]
  rw [if_neg (by rw [LAYER_TIMELINE_SIZE_eq]; simp), if_pos hu2]

/-- C9 witness: a 13-byte file whose timeline record at offset 1 carries
unknown2 = 4095 is rejected by the binary path, while the JSON decoder
accepts the same value. -/
theorem c9_timeline_unknown2_witness :
    decodeLayerTimeline Architecture.X86 "L" 1
      ⟨[0, 12, 0, 0, 0, 0, 0, 0, 0, 255, 15, 0, 0], 0⟩ =
      .error ("layer " ++ "L" ++ " unknown2 not 4096 ("
        ++ toString (fromBytesLE ((([0, 12, 0, 0, 0, 0, 0, 0, 0, 255, 15, 0, 0] : List Nat).drop (1 + 8)).take 4)) ++ ")") ∧
    jsonDecode unknown2Json = .ok ⟨[], [⟨"c", 1, 1, [unknown2Layer]⟩]⟩ :=
  c9_timeline_unknown2 Architecture.X86 "L" 1 ⟨[0, 12, 0, 0, 0, 0, 0, 0, 0, 255, 15, 0, 0], 0⟩
    (by decide) (by decide) (by decide) (by decide)

/-! ### C8 -/

/-- Every one of a layer's ten keyframe tracks is either absent or
non-empty. -/
def TracksAbsentOrNonempty (l : Layer) : Prop :=
  l.position_keyframes ≠ some [] ∧ l.anchor_point_keyframes ≠ some [] ∧
  l.colour_keyframes ≠ some [] ∧ l.scale_keyframes ≠ some [] ∧
  l.alpha_keyframes ≠ some [] ∧ l.rotation_x_keyframes ≠ some [] ∧
  l.rotation_y_keyframes ≠ some [] ∧ l.rotation_z_keyframes ≠ some [] ∧
  l.size_keyframes ≠ some [] ∧ l.markers ≠ some []

instance (l : Layer) : Decidable (TracksAbsentOrNonempty l) := by
  unfold TracksAbsentOrNonempty
  infer_instance

theorem jsonDecodeKeyframes_no_empty {α : Type} {input : Json}
    {dec : ℤ → Json → Except String α} {t : Option (List α)}
    (h : jsonDecodeKeyframes input dec = .ok t) : t ≠ some [] := by
  unfold jsonDecodeKeyframes at h
  cases input
  case null =>
    cases h
    simp
  all_goals
    rcases except_bind_ok.mp h with ⟨items, -, h⟩
    rcases except_bind_ok.mp h with ⟨ks, -, h⟩
    by_cases hk : ks.isEmpty
    · rw [if_pos hk] at h
      cases h
      simp
    · rw [if_neg hk] at h
      cases h
      simp only [List.isEmpty_iff] at hk
      simp [hk]

theorem jsonDecodeLayer_tracks {input : Json} {l : Layer}
    (h : jsonDecodeLayer input = .ok l) : TracksAbsentOrNonempty l := by
  unfold jsonDecodeLayer at h
  rcases except_bind_ok.mp h with ⟨x1, -, h⟩
  rcases except_bind_ok.mp h with ⟨name, -, h⟩
  rcases except_bind_ok.mp h with ⟨x2, -, h⟩
  rcases except_bind_ok.mp h with ⟨x3, -, h⟩
  rcases except_bind_ok.mp h with ⟨type, -, h⟩
  rcases except_bind_ok.mp h with ⟨x4, -, h⟩
  rcases except_bind_ok.mp h with ⟨x5, -, h⟩
  rcases except_bind_ok.mp h with ⟨blend, -, h⟩
  rcases except_bind_ok.mp h with ⟨ts, -, h⟩
  rcases except_bind_ok.mp h with ⟨tu1, -, h⟩
  rcases except_bind_ok.mp h with ⟨td, -, h⟩
  rcases except_bind_ok.mp h with ⟨tu2, -, h⟩
  rcases except_bind_ok.mp h with ⟨u1, -, h⟩
  rcases except_bind_ok.mp h with ⟨u2, -, h⟩
  rcases except_bind_ok.mp h with ⟨u3, -, h⟩
  rcases except_bind_ok.mp h with ⟨u4, -, h⟩
  rcases except_bind_ok.mp h with ⟨g1, -, h⟩
  rcases except_bind_ok.mp h with ⟨k1, hk1, h⟩
  rcases except_bind_ok.mp h with ⟨g2, -, h⟩
  rcases except_bind_ok.mp h with ⟨k2, hk2, h⟩
  rcases except_bind_ok.mp h with ⟨g3, -, h⟩
  rcases except_bind_ok.mp h with ⟨k3, hk3, h⟩
  rcases except_bind_ok.mp h with ⟨g4, -, h⟩
  rcases except_bind_ok.mp h with ⟨k4, hk4, h⟩
  rcases except_bind_ok.mp h with ⟨g5, -, h⟩
  rcases except_bind_ok.mp h with ⟨k5, hk5, h⟩
  rcases except_bind_ok.mp h with ⟨g6, -, h⟩
  rcases except_bind_ok.mp h with ⟨k6, hk6, h⟩
  rcases except_bind_ok.mp h with ⟨g7, -, h⟩
  rcases except_bind_ok.mp h with ⟨k7, hk7, h⟩
  rcases except_bind_ok.mp h with ⟨g8, -, h⟩
  rcases except_bind_ok.mp h with ⟨k8, hk8, h⟩
  rcases except_bind_ok.mp h with ⟨g9, -, h⟩
  rcases except_bind_ok.mp h with ⟨k9, hk9, h⟩
  rcases except_bind_ok.mp h with ⟨g10, -, h⟩
  rcases except_bind_ok.mp h with ⟨k10, hk10, h⟩
  cases h
  exact ⟨jsonDecodeKeyframes_no_empty hk1, jsonDecodeKeyframes_no_empty hk2,
    jsonDecodeKeyframes_no_empty hk3, jsonDecodeKeyframes_no_empty hk4,
    jsonDecodeKeyframes_no_empty hk5, jsonDecodeKeyframes_no_empty hk6,
    jsonDecodeKeyframes_no_empty hk7, jsonDecodeKeyframes_no_empty hk8,
    jsonDecodeKeyframes_no_empty hk9, jsonDecodeKeyframes_no_empty hk10⟩

theorem jsonDecodeLayersLoop_tracks {js : List Json} (acc : List Layer) {ls : List Layer}
    (hacc : ∀ l ∈ acc, TracksAbsentOrNonempty l)
    (h : jsonDecodeLayersLoop js acc = .ok ls) :
    ∀ l ∈ ls, TracksAbsentOrNonempty l := by
  induction js generalizing acc with
  | nil =>
    unfold jsonDecodeLayersLoop at h
    cases h
    exact hacc
  | cons j js ih =>
    unfold jsonDecodeLayersLoop at h
    rcases except_bind_ok.mp h with ⟨layer, hl, h⟩
    refine ih (acc ++ [layer]) ?_ h
    intro l hm
    rcases List.mem_append.mp hm with hm | hm
    · exact hacc l hm
    · rcases List.mem_singleton.mp hm with rfl
      exact jsonDecodeLayer_tracks hl

theorem jsonDecodeCompositionsLoop_tracks {fields : List (String × Json)}
    (acc : List Composition) {cs : List Composition}
    (hacc : ∀ c ∈ acc, ∀ l ∈ c.layers, TracksAbsentOrNonempty l)
    (h : jsonDecodeCompositionsLoop fields acc = .ok cs) :
    ∀ c ∈ cs, ∀ l ∈ c.layers, TracksAbsentOrNonempty l := by
  induction fields generalizing acc with
  | nil =>
    unfold jsonDecodeCompositionsLoop at h
    cases h
    exact hacc
  | cons f rest ih =>
    obtain ⟨nm, v⟩ := f
    unfold jsonDecodeCompositionsLoop at h
    rcases except_bind_ok.mp h with ⟨y1, -, h⟩
    rcases except_bind_ok.mp h with ⟨w, -, h⟩
    rcases except_bind_ok.mp h with ⟨y2, -, h⟩
    rcases except_bind_ok.mp h with ⟨hg, -, h⟩
    rcases except_bind_ok.mp h with ⟨u1, -, h⟩
    rcases except_bind_ok.mp h with ⟨u2, -, h⟩
    rcases except_bind_ok.mp h with ⟨y3, -, h⟩
    rcases except_bind_ok.mp h with ⟨layersJ, -, h⟩
    rcases except_bind_ok.mp h with ⟨layers, hls, h⟩
    refine ih (acc ++ [⟨nm, w.toNat, hg.toNat, layers⟩]) ?_ h
    intro c hm
    rcases List.mem_append.mp hm with hm | hm
    · exact hacc c hm
    · rcases List.mem_singleton.mp hm with rfl
      exact jsonDecodeLayersLoop_tracks [] (by simp) hls

theorem mk_checked_ok {t : List Texture} {c : List Composition} {P : Project}
    (h : Project.mk_checked t c = .ok P) : P = ⟨t, c⟩ := by
  unfold Project.mk_checked at h
  rcases except_bind_ok.mp h with ⟨u, -, h⟩
  cases h
  rfl

/-- C8 counterexample: the hand-laid x86 file whose colour pointer leads
directly to a sentinel decodes to a project whose layer carries a present
empty colour track (some []), refuting the claim that the binary decoder
normalizes an empty on-wire list to absent. -/
theorem c8_counterexample :
    binDecode Architecture.X86 100 sentinelTrackFile =
      .ok ⟨[], [⟨"c", 1, 1, [{ layerL with colour_keyframes := some [] }]⟩]⟩ ∧
    ¬ TracksAbsentOrNonempty { layerL with colour_keyframes := some [] } :=
  ⟨by decide, by decide⟩

/-- C8 amended: every project the JSON decoder returns has each of the ten
tracks absent or non-empty (empty JSON arrays are normalized to absent),
and the binary decoder maps a null track pointer to absent; but a non-zero
binary pointer leading directly to a sentinel decodes to a present empty
track (the counterexample), so the binary decoder does not normalize the
empty on-wire list. -/
theorem c8_empty_track_normalization :
    (∀ (j : Json) (P : Project), jsonDecode j = .ok P →
      ∀ c ∈ P.compositions, ∀ l ∈ c.layers, TracksAbsentOrNonempty l) ∧
    (∀ (α : Type) (fuel : Nat)
      (dec : Nat → Nat → BinaryReader → Except String (α × BinaryReader)) (r : BinaryReader),
      decodeKeyframes fuel 0 dec r = .ok (none, r)) := by
  constructor
  · intro j P h
    unfold jsonDecode at h
    rcases except_bind_ok.mp h with ⟨tJ, -, h⟩
    rcases except_bind_ok.mp h with ⟨textures, -, h⟩
    rcases except_bind_ok.mp h with ⟨cJ, -, h⟩
    rcases except_bind_ok.mp h with ⟨comps, hcomps, h⟩
    cases mk_checked_ok h
    unfold jsonDecodeCompositions at hcomps
    cases cJ <;> try simp at hcomps
    case jobj fields =>
      exact jsonDecodeCompositionsLoop_tracks [] (by simp) hcomps
  · intro α fuel dec r
    rfl

/-- C8 witness: the project decoded from unknown2Json satisfies the track
property, and a null colour pointer decodes to an absent track. -/
theorem c8_empty_track_normalization_witness :
    TracksAbsentOrNonempty unknown2Layer ∧
    decodeKeyframes 3 0 decodeColourKeyframe (⟨[], 0⟩ : BinaryReader) = .ok (none, ⟨[], 0⟩) :=
  ⟨c8_empty_track_normalization.1 unknown2Json ⟨[], [⟨"c", 1, 1, [unknown2Layer]⟩]⟩ (by decide)
      ⟨"c", 1, 1, [unknown2Layer]⟩ (by decide) unknown2Layer (by decide),
   c8_empty_track_normalization.2 ColourKeyframe 3 decodeColourKeyframe ⟨[], 0⟩⟩

/-! ### C4 and C6 -/

theorem flatten_map_length_const {α : Type} {xs : List α} {f : α → List Nat} {k : Nat}
    (h : ∀ x ∈ xs, (f x).length = k) : ((xs.map f).flatten).length = k * xs.length := by
  induction xs with
  | nil => simp
  | cons x xs ih =>
    simp [h x (List.mem_cons_self x xs), ih (fun y hy => h y (List.mem_cons_of_mem x hy))]
    ring

theorem assetsSectionBytes_length (arch : Architecture) (sp : SectionPointers) (P : Project) :
    (assetsSectionBytes arch sp P).length =
      ASSET_SIZE arch * (P.textures.length + P.compositions.length)
        + ASSET_TERMINATOR_SIZE arch + LAYERS_SECTION_POINTER_SIZE arch := by
  unfold assetsSectionBytes
  rw [List.length_append, List.length_append, List.length_append, List.length_append,
    flatten_map_length_const (k := ASSET_SIZE arch)
      (fun t _ => assetRecordBytes_length arch _ _ _ _ _ _),
    flatten_map_length_const (k := ASSET_SIZE arch)
      (fun c _ => assetRecordBytes_length arch _ _ _ _ _ _)]
  simp only [List.length_replicate, leBytes_length]
  cases arch <;>
    simp [ASSET_SIZE, POINTER_SIZE, ASSET_TERMINATOR_SIZE, LAYERS_SECTION_POINTER_SIZE] <;>
    ring

/-- C4: whenever both encoder phases complete, each of the four section
buffers has exactly the byte length phase 1 predicted, so the four size
self-checks pass and encode returns the concatenation of the buffers. -/
theorem c4_size_self_check (arch : Architecture) (P : Project) (s : Sections)
    (h : encodeSections arch P = .ok s) :
    (s.aw.tell = s.sp.assets_size ∧ s.lw.tell = s.sp.layers_size ∧
     s.kw.tell = s.sp.keyframes_size ∧ s.sw.tell = s.sp.strings_size) ∧
    binEncode arch P = .ok (s.aw.buffer ++ s.lw.buffer ++ s.kw.buffer ++ s.sw.buffer) := by
  obtain ⟨hzero, hascii, hsp, hlw, hkw, hswb, hswp, hawb⟩ := encodeSections_ok_spec h
  have ha : s.aw.tell = s.sp.assets_size := by
    rw [BinaryWriter.tell, hawb, assetsSectionBytes_length, hsp]
    rfl
  have hl : s.lw.tell = s.sp.layers_size := by
    rw [BinaryWriter.tell, hlw, hsp]
    rfl
  have hk : s.kw.tell = s.sp.keyframes_size := by
    rw [BinaryWriter.tell, hkw, hsp]
    rfl
  have hst : s.sw.tell = s.sp.strings_size := by
    rw [BinaryStringWriter.tell, hswb, hsp]
    rfl
  refine ⟨⟨ha, hl, hk, hst⟩, ?_⟩
  unfold binEncode
  simp [h, Bind.bind, Except.bind, ha, hl, hk, hst]

/-- The phase-2 result of encoding textureProject at x86. -/
def texSections : Sections :=
  ⟨⟨[20, 0, 0, 0, 52, 0, 0, 0, 2, 0, 3, 0, 0, 0, 0, 0, 0, 0, 0, 0]
      ++ List.replicate 16 0 ++ [52, 0, 0, 0] ++ List.replicate 12 0⟩,
   ⟨[]⟩, ⟨[]⟩, ⟨[97, 0], [("a", 0)]⟩, ⟨52, 0, 0, 2, 0, 52, 52, 52⟩⟩

/-- C4 witness at the one-texture project on x86. -/
theorem c4_size_self_check_witness :
    (texSections.aw.tell = texSections.sp.assets_size ∧
     texSections.lw.tell = texSections.sp.layers_size ∧
     texSections.kw.tell = texSections.sp.keyframes_size ∧
     texSections.sw.tell = texSections.sp.strings_size) ∧
    binEncode Architecture.X86 textureProject =
      .ok (texSections.aw.buffer ++ texSections.lw.buffer ++ texSections.kw.buffer
        ++ texSections.sw.buffer) :=
  c4_size_self_check Architecture.X86 textureProject texSections (by decide)

/-- C6: every file the binary encoder produces splits into the assets
section image followed by the strings section image: the strings section is
the concatenation of the distinct string values in first-occurrence order
(each exactly once, by the no-duplicates conjunct), and every string
pointer in the file, namely the name pointer of each asset record inside
assetsSectionBytes, equals the strings-section base plus the offset at
which that value was first written.  Only asset names occur, because the
encoder completes only for projects with no layers (and so no markers). -/
theorem c6_string_dedup (arch : Architecture) (P : Project) (bs : List Nat)
    (h : binEncode arch P = .ok bs) :
    bs = assetsSectionBytes arch (zeroLayerSectionPointers arch P) P
        ++ stringsBufferOf (assetNames P) ∧
    (dedupFirst (assetNames P)).Nodup := by
  unfold binEncode at h
  rcases except_bind_ok.mp h with ⟨s, hs, h⟩
  obtain ⟨hzero, hascii, hsp, hlw, hkw, hswb, hswp, hawb⟩ := encodeSections_ok_spec hs
  split at h
  · cases h
  split at h
  · cases h
  split at h
  · cases h
  split at h
  · cases h
  cases h
  refine ⟨?_, nodup_dedupFirst _⟩
  rw [hawb, hlw, hkw, hswb, hsp]
  simp

/-- C6 witness at the one-texture project on x86. -/
theorem c6_string_dedup_witness :
    ([20, 0, 0, 0, 52, 0, 0, 0, 2, 0, 3, 0, 0, 0, 0, 0, 0, 0, 0, 0]
        ++ List.replicate 16 0 ++ [52, 0, 0, 0] ++ List.replicate 12 0 ++ [97, 0] : List Nat) =
      assetsSectionBytes Architecture.X86 (zeroLayerSectionPointers Architecture.X86 textureProject)
        textureProject ++ stringsBufferOf (assetNames textureProject) ∧
    (dedupFirst (assetNames textureProject)).Nodup :=
  c6_string_dedup Architecture.X86 textureProject
    ([20, 0, 0, 0, 52, 0, 0, 0, 2, 0, 3, 0, 0, 0, 0, 0, 0, 0, 0, 0]
      ++ List.replicate 16 0 ++ [52, 0, 0, 0] ++ List.replicate 12 0 ++ [97, 0])
    (by decide)

end Aep
